import Mathlib

/-!
Verification of the dataset layer (`seq2seq_vc/datasets/audio_mel_dataset.py`)
and the decode driver (`seq2seq_vc/bin/vc_decode.py`) of the seq2seq-vc
repository, as a shallow embedding in Lean 4.

Strings are handled through explicit `List Char` recursion so that every
operation reduces in the kernel; the `String` wrappers mirror the Python
string/`os.path` operations actually used by the source:
  * `basename`   ~ `os.path.basename`
  * `stemOf`     ~ `os.path.splitext(...)[0]`
  * `strReplace` ~ `str.replace` (with a non-empty pattern, the only use here)
  * `strContains`~ Python's `in` substring test
  * `sortStr`    ~ `sorted` on a list of strings (code-point lexicographic)
-/

/-- Code-point comparison of characters, as Python compares strings. -/
def ltChar (a b : Char) : Bool := a.toNat < b.toNat

/-- Lexicographic order on char lists (Python string `<`). -/
def ltChars : List Char → List Char → Bool
  | [], [] => false
  | [], _ :: _ => true
  | _ :: _, [] => false
  | a :: as, b :: bs =>
    if ltChar a b then true
    else if ltChar b a then false
    else ltChars as bs

/-- Python string `<` (order by code point, lexicographic). -/
def strLt (a b : String) : Bool := ltChars a.data b.data

/-- Stable insertion of a string into a sorted list, keeping existing
equal elements first, as Python's stable `sorted` does. -/
def insertStr (x : String) : List String → List String
  | [] => [x]
  | y :: ys => if strLt x y then x :: y :: ys else y :: insertStr x ys

/-- Python's `sorted` on a list of strings. -/
def sortStr : List String → List String
  | [] => []
  | x :: xs => insertStr x (sortStr xs)

/-- `isPrefixCh p s` : does `s` start with `p`? -/
def isPrefixCh : List Char → List Char → Bool
  | [], _ => true
  | _ :: _, [] => false
  | a :: as, b :: bs => a == b && isPrefixCh as bs

/-- `containsCh s p` : does `s` contain `p` as a contiguous substring? -/
def containsCh : List Char → List Char → Bool
  | [], p => isPrefixCh p []
  | c :: cs, p => isPrefixCh p (c :: cs) || containsCh cs p

/-- Python's `pat in s` substring test. -/
def strContains (s pat : String) : Bool := containsCh s.data pat.data

/-- `isSuffixCh p s` : does `s` end with `p`? -/
def isSuffixCh (p s : List Char) : Bool := isPrefixCh p.reverse s.reverse

/-- Split a char list on a separator character (Python `str.split(sep)`). -/
def splitChar (sep : Char) : List Char → List (List Char)
  | [] => [[]]
  | c :: cs =>
    let r := splitChar sep cs
    if c == sep then [] :: r
    else
      match r with
      | [] => [[c]]
      | h :: t => (c :: h) :: t

/-- Join char lists with a separator (Python `sep.join`). -/
def joinWith (sep : Char) : List (List Char) → List Char
  | [] => []
  | [x] => x
  | x :: y :: t => x ++ sep :: joinWith sep (y :: t)

/-- `os.path.basename`: the part of the path after the last `/`. -/
def basename (p : String) : String :=
  String.mk ((splitChar '/' p.data).getLastD p.data)

/-- `os.path.dirname`: the part of the path before the last `/`
(empty when there is no `/`). -/
def dirname (p : String) : String :=
  let parts := splitChar '/' p.data
  if parts.length ≤ 1 then "" else String.mk (joinWith '/' parts.dropLast)

/-- `os.path.splitext(s)[0]`: drop the extension after the last dot;
consecutive dots at the start of the name never begin an extension
(CPython's `genericpath._splitext` rule). -/
def stemChars (s : List Char) : List Char :=
  let lead := s.takeWhile (· == '.')
  let rest := s.dropWhile (· == '.')
  let parts := splitChar '.' rest
  if parts.length ≤ 1 then s else lead ++ joinWith '.' parts.dropLast

/-- `os.path.splitext(os.path.basename f)[0]` composed on a `String`. -/
def stemOf (s : String) : String := String.mk (stemChars s.data)

/-- Leftmost, non-overlapping replacement of `pat` by `rep`, fuelled so the
recursion is structural; with fuel `≥ length s + 1` and a non-empty `pat`
this is exactly Python's `str.replace`. -/
def replaceFuel (pat rep : List Char) : Nat → List Char → List Char
  | 0, s => s
  | _ + 1, [] => []
  | n + 1, c :: cs =>
    if isPrefixCh pat (c :: cs) then rep ++ replaceFuel pat rep n ((c :: cs).drop pat.length)
    else c :: replaceFuel pat rep n cs

/-- Python `s.replace(pat, rep)` for a non-empty `pat`
(the source only ever replaces `"-wave.npy"` and `"-feats.npy"`). -/
def strReplace (s pat rep : String) : String :=
  String.mk (replaceFuel pat.data rep.data (s.data.length + 1) s.data)

/-!
Arrays, Python values and the filesystem model.

A loaded feature file is a 2-D numpy array, modelled row-wise over `Int`
(1-D audio arrays are rows of width 1 — only `shape[0]` and value equality
matter to the dataset layer).  `PyVal` models the values a `__getitem__`
can return or cache: a bare array, a string, or a tuple; `pyLen` is
Python's `len` on these, which is what the cache check
`len(self.caches[idx]) != 0` evaluates.
-/

structure NpyArray where
  rows : List (List Int)
deriving DecidableEq, Repr

/-- `arr.shape[0]`. -/
def NpyArray.shape0 (a : NpyArray) : Nat := a.rows.length

inductive PyVal where
  | arr : NpyArray → PyVal
  | str : String → PyVal
  | tuple : List PyVal → PyVal

/-- Python `len` on the values a dataset may cache. -/
def pyLen : PyVal → Nat
  | .arr a => a.shape0
  | .str s => s.data.length
  | .tuple l => l.length

/-- The empty-tuple sentinel `()` used to mark an unpopulated cache slot. -/
def cacheSentinel : PyVal := .tuple []

/-- The filesystem seen by a run: a finite map from file path to the array
stored there (the injected load functions are `np.load`-like readers over
this map). -/
structure FileSys where
  files : List (String × NpyArray)

/-- `np.load` over the modelled filesystem (a missing path yields the empty
array; load errors propagate uncaught in the source and are out of scope). -/
def FileSys.read (fs : FileSys) (p : String) : NpyArray :=
  (((fs.files.filter (fun pr => pr.1 == p)).map Prod.snd).headD ⟨[]⟩)

/-- Modelled from the spec: `find_files` (imported from `seq2seq_vc.utils`,
whose source is not part of the given files) — "given a root directory and
a glob-like query, produce every matching file path under the tree,
recursively, in a stable sorted order".  A query `*suffix` is modelled by
its suffix; a path matches when it lies under `root ++ "/"` and its
basename ends with the suffix.  The datasets re-sort the result, so only
the set of returned paths matters downstream. -/
def findFiles (fs : FileSys) (root : String) (querySuffix : String) : List String :=
  sortStr ((fs.files.filter
      (fun pr => isPrefixCh (root ++ "/").data pr.1.data
        && isSuffixCh querySuffix.data (basename pr.1).data)).map Prod.fst)

-- quick sanity checks of the string layer (kernel-reducible)
example : sortStr ["b/u1-feats.npy", "a/u2-feats.npy"]
    = ["a/u2-feats.npy", "b/u1-feats.npy"] := by decide
example : basename "src/a/u2-feats.npy" = "u2-feats.npy" := by decide
example : stemOf "u1-feats.npy" = "u1-feats" := by decide
example : strContains "*-feats.npy" ".npy" = true := by decide
example : strReplace "x-wave.npy" "-wave.npy" "" = "x" := by decide
example : dirname "exp/model/checkpoint.pkl" = "exp/model" := by decide

/-!
Shared pieces of the five dataset constructors
(`audio_mel_dataset.py`): length filtering, warnings and fatal errors.
-/

/-- Warnings emitted through `logging.warning` during construction. -/
inductive Warning where
  | lengthFilter (modality : String) (before after : Nat)
deriving DecidableEq, Repr

/-- Fatal errors at dataset construction: the `assert` messages of the
source, kept structurally.  `emptyRoot` carries the modality word and the
root directory of `"Not found any <modality> files in $<root>."`;
`countMismatch` the two counts of `"Number of audio and mel files are
different (<n> vs <m>)."`; `uttIdMismatch` the three interpolations of
`f"{len(set(src_utt_ids))} {len(set(trg_utt_ids))}{set(src_utt_ids).difference(set(trg_utt_ids))}"`;
`attributeError` the exception escaping a misspelled module attribute
access such as `logging.waning`. -/
inductive DSError where
  | emptyRoot (modality root : String)
  | countMismatch (nAudio nMel : Nat)
  | uttIdMismatch (nSrc nTrg : Nat) (srcOnly : List String)
  | attributeError (module attr : String)
deriving DecidableEq, Repr

/-- `[xs[i] for i in idxs]`. -/
def selectIdxs {α : Type} (xs : List α) (idxs : List Nat) : List α :=
  idxs.filterMap (fun i => xs.get? i)

/-- `[idx for idx in range(len(lens)) if lens[idx] > t]`. -/
def keptIdxs (t : Nat) (lens : List Nat) : List Nat :=
  (List.range lens.length).filter (fun i => t < lens.getD i 0)

/-- One length-filter block of the source (e.g. lines 55–68): load every
`main` file, keep the indices whose `shape[0]` strictly exceeds the
threshold, select those indices out of both co-indexed lists, and report
`(before, after)` counts when anything was dropped (`None` threshold is the
identity). -/
def lengthFilterPass (load : String → NpyArray) (t : Option Nat)
    (main co : List String) : List String × List String × Option (Nat × Nat) :=
  match t with
  | none => (main, co, none)
  | some T =>
    let lens := main.map (fun f => (load f).shape0)
    let idxs := keptIdxs T lens
    let warn := if main.length ≠ idxs.length then some (main.length, idxs.length) else none
    (selectIdxs main idxs, selectIdxs co idxs, warn)

/-- Turn a pass report into the emitted warning list. -/
def warnsOf (modality : String) : Option (Nat × Nat) → List Warning
  | none => []
  | some (b, a) => [.lengthFilter modality b a]

/-- Utterance-id derivation shared by `AudioMelDataset` and `AudioDataset`
(lines 95–102 / 197–204): if the query mentions `.npy`, strip a
`-wave.npy` suffix from the basename, else the basename's stem. -/
def audioUttIds (audio_query : String) (audio_files : List String) : List String :=
  if strContains audio_query ".npy" then
    audio_files.map (fun f => strReplace (basename f) "-wave.npy" "")
  else
    audio_files.map (fun f => stemOf (basename f))

/-- Fresh cache list: `[() for _ in range(n)]` when caching is on. -/
def freshCaches (allow_cache : Bool) (n : Nat) : List PyVal :=
  if allow_cache then List.replicate n cacheSentinel else []

/-- First-occurrence deduplication (the element set of a Python `set`). -/
def dedupAux (seen : List String) : List String → List String
  | [] => []
  | x :: xs => if seen.contains x then dedupAux seen xs else x :: dedupAux (x :: seen) xs

/-- The distinct elements of a list, first occurrences first. -/
def dedupStr (l : List String) : List String := dedupAux [] l

/-- `set(a) == set(b)` for string lists. -/
def setEqStr (a b : List String) : Bool :=
  a.all (fun x => b.contains x) && b.all (fun x => a.contains x)

/-- `set(a).difference(set(b))`, listed in first-occurrence order
(Python's set iteration order is unspecified; only membership matters). -/
def setDiffStr (a b : List String) : List String :=
  (dedupStr a).filter (fun x => ¬ b.contains x)

/-!
`AudioMelDataset` (lines 21–147).
-/

structure AudioMelDS where
  audio_files : List String
  mel_files : List String
  audio_load_fn : String → NpyArray
  mel_load_fn : String → NpyArray
  utt_ids : List String
  return_utt_id : Bool
  allow_cache : Bool
  caches : List PyVal

/-- `AudioMelDataset.__init__` (lines 24–109): discover and sort both file
lists, run the audio-threshold pass over `(audio, mel)`, then the
mel-threshold pass over `(mel, audio)`, assert non-emptiness and equal
counts, derive utterance ids from the audio files, and set up the cache.
Returns the emitted warnings alongside the constructed state. -/
def AudioMelDataset.init (fs : FileSys) (root_dir audio_query mel_query : String)
    (audio_load_fn mel_load_fn : String → NpyArray)
    (audio_length_threshold mel_length_threshold : Option Nat)
    (return_utt_id allow_cache : Bool) : Except DSError (List Warning × AudioMelDS) :=
  let audio_files0 := sortStr (findFiles fs root_dir audio_query)
  let mel_files0 := sortStr (findFiles fs root_dir mel_query)
  let pass1 := lengthFilterPass audio_load_fn audio_length_threshold audio_files0 mel_files0
  let pass2 := lengthFilterPass mel_load_fn mel_length_threshold pass1.2.1 pass1.1
  let audio_files := pass2.2.1
  let mel_files := pass2.1
  if audio_files.length = 0 then .error (.emptyRoot "audio" root_dir)
  else if audio_files.length ≠ mel_files.length then
    .error (.countMismatch audio_files.length mel_files.length)
  else
    .ok (warnsOf "audio" pass1.2.2 ++ warnsOf "mel" pass2.2.2,
      { audio_files := audio_files
        mel_files := mel_files
        audio_load_fn := audio_load_fn
        mel_load_fn := mel_load_fn
        utt_ids := audioUttIds audio_query audio_files
        return_utt_id := return_utt_id
        allow_cache := allow_cache
        caches := freshCaches allow_cache audio_files.length })

/-- The freshly computed item of `AudioMelDataset.__getitem__`
(lines 126–133), before any cache interaction. -/
def AudioMelDS.items (ds : AudioMelDS) (idx : Nat) : PyVal :=
  let utt_id := ds.utt_ids.getD idx ""
  let audio := ds.audio_load_fn (ds.audio_files.getD idx "")
  let mel := ds.mel_load_fn (ds.mel_files.getD idx "")
  if ds.return_utt_id then .tuple [.str utt_id, .arr audio, .arr mel]
  else .tuple [.arr audio, .arr mel]

/-- `AudioMelDataset.__getitem__` (lines 111–138): returns the produced
value, the state after the call, and how many load-function invocations
the call made. -/
def AudioMelDS.getitem (ds : AudioMelDS) (idx : Nat) : PyVal × AudioMelDS × Nat :=
  if ds.allow_cache ∧ pyLen (ds.caches.getD idx cacheSentinel) ≠ 0 then
    (ds.caches.getD idx cacheSentinel, ds, 0)
  else
    let items := ds.items idx
    (items,
      if ds.allow_cache then { ds with caches := ds.caches.set idx items } else ds, 2)

/-- `AudioMelDataset.__len__` (lines 140–147). -/
def AudioMelDS.len (ds : AudioMelDS) : Nat := ds.audio_files.length

/-!
`AudioDataset` (lines 150–246).  Its length-filter block is the one place
where the source says `logging.waning` instead of `logging.warning`
(line 185): when at least one file is dropped, that attribute access
raises `AttributeError` and construction aborts.
-/

structure AudioDS where
  audio_files : List String
  audio_load_fn : String → NpyArray
  utt_ids : List String
  return_utt_id : Bool
  allow_cache : Bool
  caches : List PyVal

/-- `AudioDataset.__init__` (lines 153–210), including the misspelled
`logging.waning` call on the dropped-files branch. -/
def AudioDataset.init (fs : FileSys) (root_dir audio_query : String)
    (audio_load_fn : String → NpyArray) (audio_length_threshold : Option Nat)
    (return_utt_id allow_cache : Bool) : Except DSError (List Warning × AudioDS) :=
  let audio_files0 := sortStr (findFiles fs root_dir audio_query)
  let filtered : Except DSError (List String) :=
    match audio_length_threshold with
    | none => .ok audio_files0
    | some T =>
      let lens := audio_files0.map (fun f => (audio_load_fn f).shape0)
      let idxs := keptIdxs T lens
      if audio_files0.length ≠ idxs.length then
        .error (.attributeError "logging" "waning")
      else .ok (selectIdxs audio_files0 idxs)
  match filtered with
  | .error e => .error e
  | .ok audio_files =>
    if audio_files.length = 0 then .error (.emptyRoot "audio" root_dir)
    else
      .ok ([],
        { audio_files := audio_files
          audio_load_fn := audio_load_fn
          utt_ids := audioUttIds audio_query audio_files
          return_utt_id := return_utt_id
          allow_cache := allow_cache
          caches := freshCaches allow_cache audio_files.length })

/-- The freshly computed item of `AudioDataset.__getitem__`
(lines 226–232): a bare array unless `return_utt_id`. -/
def AudioDS.items (ds : AudioDS) (idx : Nat) : PyVal :=
  let utt_id := ds.utt_ids.getD idx ""
  let audio := ds.audio_load_fn (ds.audio_files.getD idx "")
  if ds.return_utt_id then .tuple [.str utt_id, .arr audio] else .arr audio

/-- `AudioDataset.__getitem__` (lines 212–237). -/
def AudioDS.getitem (ds : AudioDS) (idx : Nat) : PyVal × AudioDS × Nat :=
  if ds.allow_cache ∧ pyLen (ds.caches.getD idx cacheSentinel) ≠ 0 then
    (ds.caches.getD idx cacheSentinel, ds, 0)
  else
    let items := ds.items idx
    (items,
      if ds.allow_cache then { ds with caches := ds.caches.set idx items } else ds, 1)

/-- `AudioDataset.__len__` (lines 239–246). -/
def AudioDS.len (ds : AudioDS) : Nat := ds.audio_files.length

/-!
`MelDataset` (lines 249–344).
-/

structure MelDS where
  mel_files : List String
  mel_load_fn : String → NpyArray
  utt_ids : List String
  return_utt_id : Bool
  allow_cache : Bool
  caches : List PyVal

/-- Utterance-id derivation of `MelDataset` (lines 295–301): the source
first assigns the stem list and immediately overwrites it with the
`".npy" in mel_query` branch, so the net effect is the `if`/`else` alone. -/
def melUttIds (mel_query : String) (mel_files : List String) : List String :=
  if strContains mel_query ".npy" then
    mel_files.map (fun f => strReplace (basename f) "-feats.npy" "")
  else
    mel_files.map (fun f => stemOf (basename f))

/-- `MelDataset.__init__` (lines 252–308). -/
def MelDataset.init (fs : FileSys) (root_dir mel_query : String)
    (mel_load_fn : String → NpyArray) (mel_length_threshold : Option Nat)
    (return_utt_id allow_cache : Bool) : Except DSError (List Warning × MelDS) :=
  let mel_files0 := sortStr (findFiles fs root_dir mel_query)
  let pass := lengthFilterPass mel_load_fn mel_length_threshold mel_files0 []
  let mel_files := pass.1
  if mel_files.length = 0 then .error (.emptyRoot "mel" root_dir)
  else
    .ok (warnsOf "mel" pass.2.2,
      { mel_files := mel_files
        mel_load_fn := mel_load_fn
        utt_ids := melUttIds mel_query mel_files
        return_utt_id := return_utt_id
        allow_cache := allow_cache
        caches := freshCaches allow_cache mel_files.length })

/-- The freshly computed item of `MelDataset.__getitem__` (lines 324–330):
a bare array unless `return_utt_id`. -/
def MelDS.items (ds : MelDS) (idx : Nat) : PyVal :=
  let utt_id := ds.utt_ids.getD idx ""
  let mel := ds.mel_load_fn (ds.mel_files.getD idx "")
  if ds.return_utt_id then .tuple [.str utt_id, .arr mel] else .arr mel

/-- `MelDataset.__getitem__` (lines 310–335). -/
def MelDS.getitem (ds : MelDS) (idx : Nat) : PyVal × MelDS × Nat :=
  if ds.allow_cache ∧ pyLen (ds.caches.getD idx cacheSentinel) ≠ 0 then
    (ds.caches.getD idx cacheSentinel, ds, 0)
  else
    let items := ds.items idx
    (items,
      if ds.allow_cache then { ds with caches := ds.caches.set idx items } else ds, 1)

/-- `MelDataset.__len__` (lines 337–344). -/
def MelDS.len (ds : MelDS) : Nat := ds.mel_files.length

/-!
`ParallelVCMelDataset` (lines 347–440).
-/

structure ParallelDS where
  src_mel_files : List String
  trg_mel_files : List String
  src_load_fn : String → NpyArray
  trg_load_fn : String → NpyArray
  utt_ids : List String
  mel_files : List (String × String)
  return_utt_id : Bool
  allow_cache : Bool
  caches : List PyVal

/-- `ParallelVCMelDataset.__init__` (lines 350–403): discover and sort the
two file lists, assert both non-empty, assert the (sorted) basename-stem
sets equal — the failure message interpolates the two set sizes and only
the source-minus-target difference — then pair the two sorted path lists
positionally with `zip`. -/
def ParallelVCMelDataset.init (fs : FileSys) (src_root_dir trg_root_dir mel_query : String)
    (src_load_fn trg_load_fn : String → NpyArray)
    (return_utt_id allow_cache : Bool) : Except DSError (List Warning × ParallelDS) :=
  let src_mel_files := sortStr (findFiles fs src_root_dir mel_query)
  let trg_mel_files := sortStr (findFiles fs trg_root_dir mel_query)
  if src_mel_files.length = 0 then .error (.emptyRoot "mel" src_root_dir)
  else if trg_mel_files.length = 0 then .error (.emptyRoot "mel" trg_root_dir)
  else
    let src_utt_ids := sortStr (src_mel_files.map (fun f => stemOf (basename f)))
    let trg_utt_ids := sortStr (trg_mel_files.map (fun f => stemOf (basename f)))
    if ¬ setEqStr src_utt_ids trg_utt_ids then
      .error (.uttIdMismatch (dedupStr src_utt_ids).length (dedupStr trg_utt_ids).length
        (setDiffStr src_utt_ids trg_utt_ids))
    else
      .ok ([],
        { src_mel_files := src_mel_files
          trg_mel_files := trg_mel_files
          src_load_fn := src_load_fn
          trg_load_fn := trg_load_fn
          utt_ids := src_utt_ids
          mel_files := src_mel_files.zip trg_mel_files
          return_utt_id := return_utt_id
          allow_cache := allow_cache
          caches := freshCaches allow_cache (src_mel_files.zip trg_mel_files).length })

/-- The freshly computed item of `ParallelVCMelDataset.__getitem__`
(lines 419–426). -/
def ParallelDS.items (ds : ParallelDS) (idx : Nat) : PyVal :=
  let utt_id := ds.utt_ids.getD idx ""
  let src_mel := ds.src_load_fn (ds.mel_files.getD idx ("", "")).1
  let trg_mel := ds.trg_load_fn (ds.mel_files.getD idx ("", "")).2
  if ds.return_utt_id then .tuple [.str utt_id, .arr src_mel, .arr trg_mel]
  else .tuple [.arr src_mel, .arr trg_mel]

/-- `ParallelVCMelDataset.__getitem__` (lines 405–431). -/
def ParallelDS.getitem (ds : ParallelDS) (idx : Nat) : PyVal × ParallelDS × Nat :=
  if ds.allow_cache ∧ pyLen (ds.caches.getD idx cacheSentinel) ≠ 0 then
    (ds.caches.getD idx cacheSentinel, ds, 0)
  else
    let items := ds.items idx
    (items,
      if ds.allow_cache then { ds with caches := ds.caches.set idx items } else ds, 2)

/-- `ParallelVCMelDataset.__len__` (lines 433–440). -/
def ParallelDS.len (ds : ParallelDS) : Nat := ds.mel_files.length

/-!
`SourceVCMelDataset` (lines 443–520).
-/

structure SourceDS where
  src_mel_files : List String
  mel_load_fn : String → NpyArray
  utt_ids : List String
  return_utt_id : Bool
  allow_cache : Bool
  caches : List PyVal

/-- `SourceVCMelDataset.__init__` (lines 448–484): discover and sort the
source file list, assert non-emptiness, and take
`os.path.splitext(os.path.basename(f))[0]` as the utterance id — with no
`-feats` suffix stripping, unlike `MelDataset`'s `.npy` branch. -/
def SourceVCMelDataset.init (fs : FileSys) (src_root_dir mel_query : String)
    (mel_load_fn : String → NpyArray)
    (return_utt_id allow_cache : Bool) : Except DSError (List Warning × SourceDS) :=
  let src_mel_files := sortStr (findFiles fs src_root_dir mel_query)
  if src_mel_files.length = 0 then .error (.emptyRoot "mel" src_root_dir)
  else
    .ok ([],
      { src_mel_files := src_mel_files
        mel_load_fn := mel_load_fn
        utt_ids := src_mel_files.map (fun f => stemOf (basename f))
        return_utt_id := return_utt_id
        allow_cache := allow_cache
        caches := freshCaches allow_cache src_mel_files.length })

/-- The freshly computed item of `SourceVCMelDataset.__getitem__`
(lines 500–506): a bare array unless `return_utt_id`. -/
def SourceDS.items (ds : SourceDS) (idx : Nat) : PyVal :=
  let utt_id := ds.utt_ids.getD idx ""
  let src_mel := ds.mel_load_fn (ds.src_mel_files.getD idx "")
  if ds.return_utt_id then .tuple [.str utt_id, .arr src_mel] else .arr src_mel

/-- `SourceVCMelDataset.__getitem__` (lines 486–511). -/
def SourceDS.getitem (ds : SourceDS) (idx : Nat) : PyVal × SourceDS × Nat :=
  if ds.allow_cache ∧ pyLen (ds.caches.getD idx cacheSentinel) ≠ 0 then
    (ds.caches.getD idx cacheSentinel, ds, 0)
  else
    let items := ds.items idx
    (items,
      if ds.allow_cache then { ds with caches := ds.caches.set idx items } else ds, 1)

/-- `SourceVCMelDataset.__len__` (lines 513–520). -/
def SourceDS.len (ds : SourceDS) : Nat := ds.src_mel_files.length

/-!
The decode driver `vc_decode.py` — the prefix of `main` that the
input-source validation can interrupt (lines 104–166): directory creation,
configuration loading, target-stats reading, the mutually-exclusive flag
check, and dataset construction.  Logging-only statements perform no I/O
and are not modelled; everything after dataset construction (model
restoration, the decode loop) is beyond the first possible abort points
and outside the modelled prefix.
-/

/-- The command-line arguments of `vc_decode.py` that this prefix reads. -/
structure DecodeArgs where
  feats_scp : Option String
  dumpdir : Option String
  trg_stats : String
  outdir : String
  checkpoint : String
  config : Option String

/-- The observable I/O actions of the modelled prefix, in program order. -/
inductive IOAct where
  | makedirs (dir : String)
  | openConfig (path : String)
  | readStats (path : String)
  | openDataset (dir : String)
deriving DecidableEq, Repr

/-- The errors the modelled prefix can raise. -/
inductive DecodeErr where
  | valueError (msg : String)
  | notImplementedError
deriving DecidableEq, Repr

/-- `main` of `vc_decode.py`, lines 124–166: performs, in order,
`os.makedirs(outdir)` when the directory does not exist (125–126), the
configuration open/read with the checkpoint-directory fallback (129–133),
the two `read_hdf5(trg_stats, ...)` reads (139–142), then the
mutually-exclusive flag check (145–148) raising
`ValueError("Please specify either --dumpdir or --feats-scp.")`, and
finally either dataset construction over `dumpdir` (151–159) or the
`NotImplementedError` of the scp branch (161).  Returns the I/O actions
performed before the run ends, and the raised error if any. -/
def vcDecodeMain (args : DecodeArgs) (outdirExists : Bool) :
    List IOAct × Option DecodeErr :=
  let acts0 : List IOAct := if outdirExists then [] else [.makedirs args.outdir]
  let configPath :=
    match args.config with
    | none => dirname args.checkpoint ++ "/config.yml"
    | some p => p
  let acts1 := acts0 ++ [.openConfig configPath, .readStats args.trg_stats]
  if (args.feats_scp.isSome ∧ args.dumpdir.isSome)
      ∨ (args.feats_scp.isNone ∧ args.dumpdir.isNone) then
    (acts1, some (.valueError "Please specify either --dumpdir or --feats-scp."))
  else
    match args.dumpdir with
    | some d => (acts1 ++ [.openDataset d], none)
    | none => (acts1, some .notImplementedError)

/-!
Concrete fixtures: small filesystems with 80-channel feature arrays, used
by the concrete evaluations below.
-/

/-- One 80-channel frame of constant value `v`. -/
def row80 (v : Int) : List Int := List.replicate 80 v

/-- A `(t, 80)` feature array of constant value `v`. -/
def feat (t : Nat) (v : Int) : NpyArray := ⟨List.replicate t (row80 v)⟩

/-- Three source-only evaluation files under `dump/`. -/
def fsC1 : FileSys :=
  ⟨[("dump/u1-feats.npy", feat 4 1), ("dump/u2-feats.npy", feat 5 2),
    ("dump/u3-feats.npy", feat 6 3)]⟩

/-- The dataset `SourceVCMelDataset(fsC1, "dump")` constructs. -/
def dsC1 : SourceDS :=
  { src_mel_files := ["dump/u1-feats.npy", "dump/u2-feats.npy", "dump/u3-feats.npy"]
    mel_load_fn := fsC1.read
    utt_ids := ["u1-feats", "u2-feats", "u3-feats"]
    return_utt_id := true
    allow_cache := false
    caches := [] }

example :
    SourceVCMelDataset.init fsC1 "dump" "-feats.npy" fsC1.read true false = .ok ([], dsC1) := by
  rfl

/-- C1, counterexample: over a directory with exactly `u1-feats.npy`,
`u2-feats.npy`, `u3-feats.npy`, the source-only evaluation dataset with
`return_utt_id=True` constructs, but its first item carries the utterance
id `"u1-feats"`, not the `"u1"` the claim states: `SourceVCMelDataset`
derives ids with `os.path.splitext` alone and never strips the `-feats`
marker. -/
theorem C1_counterexample :
    SourceVCMelDataset.init fsC1 "dump" "-feats.npy" fsC1.read true false = .ok ([], dsC1)
    ∧ (dsC1.getitem 0).1 = .tuple [.str "u1-feats", .arr (feat 4 1)]
    ∧ (("u1-feats" : String) == "u1") = false := by
  refine ⟨rfl, rfl, by decide⟩

/-- C1, amended: constructing the source-only evaluation dataset with
`return_utt_id=True` over a directory holding exactly `u1-feats.npy`,
`u2-feats.npy`, `u3-feats.npy` (2-D arrays of shape `(T_i, 80)`) yields a
dataset of length 3 whose items, in sorted order, are
`("u1-feats", arr1)`, `("u2-feats", arr2)`, `("u3-feats", arr3)` — each
`arr_i` the array stored in `u_i-feats.npy`, each id the filename with
only the `.npy` extension stripped. -/
theorem C1_theorem :
    SourceVCMelDataset.init fsC1 "dump" "-feats.npy" fsC1.read true false = .ok ([], dsC1)
    ∧ dsC1.len = 3
    ∧ (dsC1.getitem 0).1 = .tuple [.str "u1-feats", .arr (fsC1.read "dump/u1-feats.npy")]
    ∧ (dsC1.getitem 1).1 = .tuple [.str "u2-feats", .arr (fsC1.read "dump/u2-feats.npy")]
    ∧ (dsC1.getitem 2).1 = .tuple [.str "u3-feats", .arr (fsC1.read "dump/u3-feats.npy")]
    ∧ fsC1.read "dump/u1-feats.npy" = feat 4 1
    ∧ fsC1.read "dump/u2-feats.npy" = feat 5 2
    ∧ fsC1.read "dump/u3-feats.npy" = feat 6 3 := by
  exact ⟨rfl, rfl, rfl, rfl, rfl, by decide, by decide, by decide⟩

/-- `getD` distributes over `zip` inside the zipped length. -/
theorem zip_getD {α β : Type} (l1 : List α) (l2 : List β) (i : Nat)
    (h : i < (l1.zip l2).length) (d1 : α) (d2 : β) :
    (l1.zip l2).getD i (d1, d2) = (l1.getD i d1, l2.getD i d2) := by
  induction l1 generalizing l2 i with
  | nil => simp [List.zip] at h
  | cons a as ih =>
    cases l2 with
    | nil => simp [List.zip] at h
    | cons b bs =>
      cases i with
      | zero => rfl
      | succ n =>
        simpa using ih bs n (by simpa using h)

/-- Parallel roots whose sorted-path order disagrees with utterance-id
order: the source root keeps `u2` in subdirectory `a/` and `u1` in `b/`,
while the target root is flat. -/
def fsC2 : FileSys :=
  ⟨[("src/a/u2-feats.npy", feat 2 10), ("src/b/u1-feats.npy", feat 3 20),
    ("trg/u1-feats.npy", feat 4 30), ("trg/u2-feats.npy", feat 5 40)]⟩

/-- The dataset `ParallelVCMelDataset(fsC2, "src", "trg")` constructs. -/
def dsC2 : ParallelDS :=
  { src_mel_files := ["src/a/u2-feats.npy", "src/b/u1-feats.npy"]
    trg_mel_files := ["trg/u1-feats.npy", "trg/u2-feats.npy"]
    src_load_fn := fsC2.read
    trg_load_fn := fsC2.read
    utt_ids := ["u1-feats", "u2-feats"]
    mel_files := [("src/a/u2-feats.npy", "trg/u1-feats.npy"),
      ("src/b/u1-feats.npy", "trg/u2-feats.npy")]
    return_utt_id := true
    allow_cache := false
    caches := [] }

/-- C2, counterexample: a parallel dataset with equal utterance-id sets
constructs, yet its first item pairs the array of source file
`src/a/u2-feats.npy` (id `u2-feats`) with the array of target file
`trg/u1-feats.npy` (id `u1-feats`): pairing is positional over the two
independently path-sorted lists, not by matching utterance id, so the
returned arrays come from files with different ids. -/
theorem C2_counterexample :
    ParallelVCMelDataset.init fsC2 "src" "trg" "-feats.npy" fsC2.read fsC2.read true false
      = .ok ([], dsC2)
    ∧ (dsC2.getitem 0).1 = .tuple [.str "u1-feats", .arr (feat 2 10), .arr (feat 4 30)]
    ∧ fsC2.read "src/a/u2-feats.npy" = feat 2 10
    ∧ fsC2.read "trg/u1-feats.npy" = feat 4 30
    ∧ stemOf (basename "src/a/u2-feats.npy") = "u2-feats"
    ∧ stemOf (basename "trg/u1-feats.npy") = "u1-feats"
    ∧ (("u2-feats" : String) == "u1-feats") = false := by
  exact ⟨rfl, rfl, by decide, by decide, by decide, by decide, by decide⟩

/-- C2, amended: every successfully constructed parallel source/target mel
dataset requires the two roots' utterance-id sets to be set-equal, and
`get(i)` returns the arrays loaded from the `i`-th entries of the two
independently path-sorted file lists — pairing is positional, which
coincides with id pairing only when sorted path order matches sorted id
order on both sides (the counterexample shows it need not). -/
theorem C2_theorem (fs : FileSys) (srcR trgR q : String)
    (lf tf : String → NpyArray) (rui ac : Bool) (w : List Warning) (ds : ParallelDS)
    (h : ParallelVCMelDataset.init fs srcR trgR q lf tf rui ac = .ok (w, ds)) :
    ds.src_mel_files = sortStr (findFiles fs srcR q)
    ∧ ds.trg_mel_files = sortStr (findFiles fs trgR q)
    ∧ ds.mel_files = ds.src_mel_files.zip ds.trg_mel_files
    ∧ ds.utt_ids = sortStr (ds.src_mel_files.map (fun f => stemOf (basename f)))
    ∧ setEqStr (sortStr (ds.src_mel_files.map (fun f => stemOf (basename f))))
        (sortStr (ds.trg_mel_files.map (fun f => stemOf (basename f)))) = true
    ∧ (∀ idx, idx < ds.len →
        ds.items idx =
          if ds.return_utt_id then
            PyVal.tuple [.str (ds.utt_ids.getD idx ""),
              .arr (lf (ds.src_mel_files.getD idx "")),
              .arr (tf (ds.trg_mel_files.getD idx ""))]
          else
            PyVal.tuple [.arr (lf (ds.src_mel_files.getD idx "")),
              .arr (tf (ds.trg_mel_files.getD idx ""))])
    ∧ (ds.allow_cache = false → ∀ idx, (ds.getitem idx).1 = ds.items idx) := by
  simp only [ParallelVCMelDataset.init] at h
  split at h
  · exact absurd h (by simp)
  split at h
  · exact absurd h (by simp)
  split at h
  · exact absurd h (by simp)
  next hset =>
  rw [Except.ok.injEq, Prod.mk.injEq] at h
  obtain ⟨hw, hds⟩ := h
  subst hds
  refine ⟨rfl, rfl, rfl, rfl, ?_, ?_, ?_⟩
  · exact Bool.not_not_eq.mp (by simpa using hset)
  · intro idx hidx
    have hzip := zip_getD (sortStr (findFiles fs srcR q)) (sortStr (findFiles fs trgR q))
      idx hidx "" ""
    simp only [ParallelDS.items, hzip]
  · intro hac idx
    have hac2 : ac = false := by simpa using hac
    simp [ParallelDS.getitem, hac2]

/-- C2, witness for the amended theorem: the theorem applied to the
concrete parallel dataset `dsC2`. -/
theorem C2_witness :
    ParallelVCMelDataset.init fsC2 "src" "trg" "-feats.npy" fsC2.read fsC2.read true false
      = .ok ([], dsC2)
    ∧ dsC2.mel_files = dsC2.src_mel_files.zip dsC2.trg_mel_files := by
  exact ⟨rfl,
    (C2_theorem fsC2 "src" "trg" "-feats.npy" fsC2.read fsC2.read true false [] dsC2 rfl).2.2.1⟩

/-- Parallel roots with unequal id sets: source ids `{a, b}`, target ids
`{a, c}`. -/
def fsC3 : FileSys :=
  ⟨[("s/a.npy", feat 1 1), ("s/b.npy", feat 1 2),
    ("t/a.npy", feat 1 3), ("t/c.npy", feat 1 4)]⟩

/-- C3, counterexample: with source ids `{a, b}` and target ids `{a, c}`,
parallel construction fails, but the assertion message interpolates only
`set(src).difference(set(trg))` — here `{"b"}` together with the two set
sizes — and never mentions the target-only id `"c"`, so the error does not
report the symmetric difference the claim states. -/
theorem C3_counterexample :
    ParallelVCMelDataset.init fsC3 "s" "t" ".npy" fsC3.read fsC3.read false false
      = .error (.uttIdMismatch 2 2 ["b"])
    ∧ (["b"].contains "c") = false := by
  exact ⟨rfl, by decide⟩

/-- C3, amended: constructing a parallel source/target mel dataset whose
two (non-empty) roots have unequal utterance-id sets raises a fatal error
whose message reports the sizes of the two id sets and the ids present in
the source root but missing from the target root — the one-sided
difference `set(src) - set(trg)`, not the symmetric difference. -/
theorem C3_theorem (fs : FileSys) (srcR trgR q : String)
    (lf tf : String → NpyArray) (rui ac : Bool)
    (hsrc : sortStr (findFiles fs srcR q) ≠ [])
    (htrg : sortStr (findFiles fs trgR q) ≠ [])
    (hne : setEqStr
        (sortStr ((sortStr (findFiles fs srcR q)).map (fun f => stemOf (basename f))))
        (sortStr ((sortStr (findFiles fs trgR q)).map (fun f => stemOf (basename f)))) = false) :
    ParallelVCMelDataset.init fs srcR trgR q lf tf rui ac
      = .error (.uttIdMismatch
          (dedupStr (sortStr ((sortStr (findFiles fs srcR q)).map
            (fun f => stemOf (basename f))))).length
          (dedupStr (sortStr ((sortStr (findFiles fs trgR q)).map
            (fun f => stemOf (basename f))))).length
          (setDiffStr
            (sortStr ((sortStr (findFiles fs srcR q)).map (fun f => stemOf (basename f))))
            (sortStr ((sortStr (findFiles fs trgR q)).map (fun f => stemOf (basename f)))))) := by
  simp only [ParallelVCMelDataset.init]
  rw [if_neg (by simpa [List.length_eq_zero] using hsrc),
    if_neg (by simpa [List.length_eq_zero] using htrg),
    if_pos (by simp [hne])]

/-- C3, witness for the amended theorem: the theorem applied to the
`{a, b}` vs `{a, c}` roots, whose error value is `uttIdMismatch 2 2 ["b"]`. -/
theorem C3_witness :
    ParallelVCMelDataset.init fsC3 "s" "t" ".npy" fsC3.read fsC3.read false false
      = .error (.uttIdMismatch 2 2 ["b"]) := by
  exact C3_theorem fsC3 "s" "t" ".npy" fsC3.read fsC3.read false false
    (by decide) (by decide) (by decide)


/-- Selecting the kept indices out of the list whose lengths were measured
is exactly filtering it by the strict threshold comparison. -/
theorem selectIdxs_keptIdxs {α : Type} (g : α → Nat) (T : Nat) (xs : List α) :
    selectIdxs xs (keptIdxs T (xs.map g)) = xs.filter (fun x => T < g x) := by
  induction xs with
  | nil => rfl
  | cons x xs ih =>
    simp only [keptIdxs, List.map_cons, List.length_cons, List.range_succ_eq_map,
      List.filter_cons, List.getD_cons_zero]
    have h1 : ((fun i => (x :: xs).get? i) ∘ Nat.succ) = (fun i => xs.get? i) := by
      funext i
      simp
    have h2 : ((fun i => decide (T < (g x :: List.map g xs).getD i 0)) ∘ Nat.succ)
        = (fun i => decide (T < (List.map g xs).getD i 0)) := by
      funext i
      simp [List.getD_cons_succ]
    by_cases hx : T < g x
    · simp only [hx, decide_True, if_pos, selectIdxs, List.filterMap_cons, List.get?_cons_zero,
        List.filter_map, List.filterMap_map]
      rw [h1, h2]
      exact congrArg (List.cons x) ih
    · simp only [hx, decide_False, Bool.false_eq_true, if_neg, not_false_eq_true,
        selectIdxs, List.filter_map, List.filterMap_map]
      rw [h1, h2]
      exact ih

/-- Equal-length modality lists select to equal-length lists under any
shared index list. -/
theorem selectIdxs_length_eq {α β : Type} (xs : List α) (ys : List β)
    (hxy : xs.length = ys.length) (idxs : List Nat) :
    (selectIdxs xs idxs).length = (selectIdxs ys idxs).length := by
  induction idxs with
  | nil => rfl
  | cons i idxs ih =>
    simp only [selectIdxs, List.filterMap_cons] at ih ⊢
    cases hx : xs.get? i with
    | none =>
      have hy : ys.get? i = none := by
        rw [List.get?_eq_none] at hx ⊢
        omega
      rw [hy]
      exact ih
    | some a =>
      have hi : ¬ xs.length ≤ i := by
        intro hle
        rw [List.get?_eq_none.mpr hle] at hx
        cases hx
      cases hy : ys.get? i with
      | none => exact absurd (hxy ▸ List.get?_eq_none.mp hy) hi
      | some b =>
        simpa using ih

/-- Selecting a shared index list out of the zipped pair of equal-length
modality lists equals zipping the two selections: the same retained-index
set preserves pairwise alignment. -/
theorem selectIdxs_zip {α β : Type} (xs : List α) (ys : List β)
    (hxy : xs.length = ys.length) (idxs : List Nat) :
    selectIdxs (xs.zip ys) idxs = (selectIdxs xs idxs).zip (selectIdxs ys idxs) := by
  induction idxs with
  | nil => rfl
  | cons i idxs ih =>
    simp only [selectIdxs, List.filterMap_cons] at ih ⊢
    cases hx : xs.get? i with
    | none =>
      have hy : ys.get? i = none := by
        rw [List.get?_eq_none] at hx ⊢
        omega
      have hz : (xs.zip ys).get? i = none := by
        rw [List.get?_eq_none] at hx ⊢
        rw [List.length_zip]
        omega
      rw [hy, hz]
      exact ih
    | some a =>
      have hi : ¬ xs.length ≤ i := by
        intro hle
        rw [List.get?_eq_none.mpr hle] at hx
        cases hx
      cases hy : ys.get? i with
      | none => exact absurd (hxy ▸ List.get?_eq_none.mp hy) hi
      | some b =>
        have hz : (xs.zip ys).get? i = some (a, b) :=
          (List.get?_zip_eq_some xs ys (a, b) i).mpr ⟨hx, hy⟩
        rw [hz, ih]
        rfl

/-- When every index is in range, selection keeps one element per index. -/
theorem selectIdxs_length_of_lt {α : Type} (xs : List α) (idxs : List Nat)
    (h : ∀ i ∈ idxs, i < xs.length) :
    (selectIdxs xs idxs).length = idxs.length := by
  induction idxs with
  | nil => rfl
  | cons i idxs ih =>
    have hi : i < xs.length := h i (List.mem_cons_self i idxs)
    have ha : xs.get? i = some (xs.get ⟨i, hi⟩) := List.get?_eq_get hi
    simp only [selectIdxs, List.filterMap_cons, ha]
    simpa [selectIdxs] using ih (fun j hj => h j (List.mem_cons_of_mem i hj))

/-- Every kept index is in range of the measured list. -/
theorem keptIdxs_lt (T : Nat) (lens : List Nat) :
    ∀ i ∈ keptIdxs T lens, i < lens.length := by
  intro i hi
  have := List.of_mem_filter hi
  exact List.mem_range.mp (List.mem_of_mem_filter hi)

/-- C4: every dataset variant with a length threshold retains exactly the
discovered items whose `shape[0]` strictly exceeds the threshold, applies
the same kept-index list in the same order to every co-indexed modality
list (preserving pairwise alignment and lengths), and a `None` threshold
is the identity.  For the audio-only variant, whose misspelled warning
call aborts any construction that actually drops a file, a successful
construction with a threshold means nothing was dropped — equivalently,
every retained file strictly exceeds the threshold. -/
theorem C4_theorem :
    (∀ (load : String → NpyArray) (main co : List String),
        lengthFilterPass load none main co = (main, co, none))
    ∧ (∀ (load : String → NpyArray) (T : Nat) (main co : List String),
        (lengthFilterPass load (some T) main co).1
            = main.filter (fun f => T < (load f).shape0)
        ∧ (lengthFilterPass load (some T) main co).1
            = selectIdxs main (keptIdxs T (main.map (fun f => (load f).shape0)))
        ∧ (lengthFilterPass load (some T) main co).2.1
            = selectIdxs co (keptIdxs T (main.map (fun f => (load f).shape0))))
    ∧ (∀ (load : String → NpyArray) (T : Nat) (main co : List String),
        main.length = co.length →
          (lengthFilterPass load (some T) main co).1.length
              = (lengthFilterPass load (some T) main co).2.1.length
          ∧ selectIdxs (main.zip co) (keptIdxs T (main.map (fun f => (load f).shape0)))
              = (lengthFilterPass load (some T) main co).1.zip
                  (lengthFilterPass load (some T) main co).2.1)
    ∧ (∀ fs root qa qm la lm ta tm rui ac w ds,
        AudioMelDataset.init fs root qa qm la lm ta tm rui ac = .ok (w, ds) →
          ds.audio_files = (lengthFilterPass lm tm
              (lengthFilterPass la ta (sortStr (findFiles fs root qa))
                (sortStr (findFiles fs root qm))).2.1
              (lengthFilterPass la ta (sortStr (findFiles fs root qa))
                (sortStr (findFiles fs root qm))).1).2.1
          ∧ ds.mel_files = (lengthFilterPass lm tm
              (lengthFilterPass la ta (sortStr (findFiles fs root qa))
                (sortStr (findFiles fs root qm))).2.1
              (lengthFilterPass la ta (sortStr (findFiles fs root qa))
                (sortStr (findFiles fs root qm))).1).1)
    ∧ (∀ fs root q lm t rui ac w ds,
        MelDataset.init fs root q lm t rui ac = .ok (w, ds) →
          ds.mel_files = (lengthFilterPass lm t (sortStr (findFiles fs root q)) []).1)
    ∧ (∀ fs root q la T rui ac w ds,
        AudioDataset.init fs root q la (some T) rui ac = .ok (w, ds) →
          ds.audio_files = sortStr (findFiles fs root q)
          ∧ ∀ f ∈ ds.audio_files, T < (la f).shape0)
    ∧ (∀ fs root q la rui ac w ds,
        AudioDataset.init fs root q la none rui ac = .ok (w, ds) →
          ds.audio_files = sortStr (findFiles fs root q)) := by
  refine ⟨fun load main co => rfl, ?_, ?_, ?_, ?_, ?_, ?_⟩
  · intro load T main co
    exact ⟨selectIdxs_keptIdxs (fun f => (load f).shape0) T main, rfl, rfl⟩
  · intro load T main co hlen
    exact ⟨selectIdxs_length_eq main co hlen _, selectIdxs_zip main co hlen _⟩
  · intro fs root qa qm la lm ta tm rui ac w ds h
    simp only [AudioMelDataset.init] at h
    split at h
    · exact absurd h (by simp)
    split at h
    · exact absurd h (by simp)
    rw [Except.ok.injEq, Prod.mk.injEq] at h
    obtain ⟨hw, hds⟩ := h
    subst hds
    exact ⟨rfl, rfl⟩
  · intro fs root q lm t rui ac w ds h
    simp only [MelDataset.init] at h
    split at h
    · exact absurd h (by simp)
    rw [Except.ok.injEq, Prod.mk.injEq] at h
    obtain ⟨hw, hds⟩ := h
    subst hds
    rfl
  · intro fs root q la T rui ac w ds h
    simp only [AudioDataset.init] at h
    split at h
    · exact absurd h (by simp)
    next hlen =>
    split at h
    · exact absurd h (by simp)
    rw [Except.ok.injEq, Prod.mk.injEq] at h
    obtain ⟨hw, hds⟩ := h
    subst hds
    have hlen2 : (sortStr (findFiles fs root q)).length
        = (keptIdxs T ((sortStr (findFiles fs root q)).map (fun f => (la f).shape0))).length := by
      by_contra hne
      rw [if_pos (by simpa using hne)] at hlen
      cases hlen
    rw [if_neg (by simp [hlen2]), Except.ok.injEq] at hlen
    have hall : ∀ f ∈ sortStr (findFiles fs root q), T < (la f).shape0 := by
      have hsel : (selectIdxs (sortStr (findFiles fs root q))
          (keptIdxs T ((sortStr (findFiles fs root q)).map (fun f => (la f).shape0)))).length
          = (keptIdxs T ((sortStr (findFiles fs root q)).map (fun f => (la f).shape0))).length := by
        refine selectIdxs_length_of_lt _ _ ?_
        intro i hi
        have := keptIdxs_lt T _ i hi
        simpa using this
      have hfil : ((sortStr (findFiles fs root q)).filter
          (fun f => T < (la f).shape0)).length = (sortStr (findFiles fs root q)).length := by
        rw [← selectIdxs_keptIdxs (fun f => (la f).shape0) T (sortStr (findFiles fs root q)),
          hsel, ← hlen2]
      intro f hf
      have := (List.filter_length_eq_length.mp hfil) f hf
      simpa using this
    have hid : selectIdxs (sortStr (findFiles fs root q))
        (keptIdxs T ((sortStr (findFiles fs root q)).map (fun f => (la f).shape0)))
        = sortStr (findFiles fs root q) := by
      rw [selectIdxs_keptIdxs (fun f => (la f).shape0) T (sortStr (findFiles fs root q))]
      exact List.filter_eq_self.mpr (fun a ha => by simpa using hall a ha)
    subst hlen
    constructor
    · exact hid
    · rw [hid]
      exact hall
  · intro fs root q la rui ac w ds h
    simp only [AudioDataset.init] at h
    split at h
    · exact absurd h (by simp)
    rw [Except.ok.injEq, Prod.mk.injEq] at h
    obtain ⟨hw, hds⟩ := h
    subst hds
    rfl

/-- A root with one long (`T = 5`) and one short (`T = 1`) feature file,
for exercising the length filter with threshold 2. -/
def fsLen : FileSys :=
  ⟨[("d/p-feats.npy", feat 5 1), ("d/q-feats.npy", feat 1 2)]⟩

/-- The dataset `MelDataset(fsLen, "d", threshold 2)` constructs. -/
def dsC4 : MelDS :=
  { mel_files := ["d/p-feats.npy"]
    mel_load_fn := fsLen.read
    utt_ids := ["p"]
    return_utt_id := false
    allow_cache := false
    caches := [] }

/-- C4, witness: the mel-only conjunct of the filter theorem applied to a
concrete root where threshold 2 keeps the 5-frame file and drops the
1-frame file (with the before/after warning emitted). -/
theorem C4_witness :
    MelDataset.init fsLen "d" "-feats.npy" fsLen.read (some 2) false false
      = .ok ([.lengthFilter "mel" 2 1], dsC4)
    ∧ dsC4.mel_files
        = (lengthFilterPass fsLen.read (some 2)
            (sortStr (findFiles fsLen "d" "-feats.npy")) []).1 := by
  exact ⟨rfl, C4_theorem.2.2.2.2.1 fsLen "d" "-feats.npy" fsLen.read (some 2) false false
    [.lengthFilter "mel" 2 1] dsC4 rfl⟩

/-- The empty filesystem: no file matches any query under any root. -/
def fsEmpty : FileSys := ⟨[]⟩

/-- C5: constructing any of the five variants over a root with zero
matching files fails with the assertion naming the empty root, and the
mel-only variant still does so when the length filter removes every match;
but in the audio-only variant the misspelled `logging.waning` raises an
`AttributeError` — which names no root — as soon as the filter drops a
file, so the filter-removes-everything path of that variant aborts before
its empty-root assertion is reached (the code bug behind this claim). -/
theorem C5_theorem :
    AudioMelDataset.init fsEmpty "d" ".h5" ".h5" fsEmpty.read fsEmpty.read none none false false
      = .error (.emptyRoot "audio" "d")
    ∧ AudioDataset.init fsEmpty "d" "-wave.npy" fsEmpty.read none false false
      = .error (.emptyRoot "audio" "d")
    ∧ MelDataset.init fsEmpty "d" "-feats.npy" fsEmpty.read none false false
      = .error (.emptyRoot "mel" "d")
    ∧ ParallelVCMelDataset.init fsEmpty "s" "t" "-feats.npy" fsEmpty.read fsEmpty.read false false
      = .error (.emptyRoot "mel" "s")
    ∧ SourceVCMelDataset.init fsEmpty "d" "-feats.npy" fsEmpty.read false false
      = .error (.emptyRoot "mel" "d")
    ∧ AudioDataset.init fsEmpty "d" ".npy" fsEmpty.read (some 5) false false
      = .error (.emptyRoot "audio" "d")
    ∧ MelDataset.init fsLen "d" "-feats.npy" fsLen.read (some 9) false false
      = .error (.emptyRoot "mel" "d")
    ∧ AudioDataset.init fsLen "d" ".npy" fsLen.read (some 9) false false
      = .error (.attributeError "logging" "waning") := by
  exact ⟨rfl, rfl, rfl, rfl, rfl, rfl, rfl, rfl⟩

/-- C6: when the length filter drops at least one item, the mel-only and
audio+mel variants warn with the before/after counts and construction
completes; the audio-only variant instead aborts with the `AttributeError`
of the misspelled `logging.waning` call on the very same scenario (the
code bug behind this claim). -/
theorem C6_theorem :
    MelDataset.init fsLen "d" "-feats.npy" fsLen.read (some 2) false false
      = .ok ([.lengthFilter "mel" 2 1], dsC4)
    ∧ AudioMelDataset.init fsLen "d" "-feats.npy" "-feats.npy" fsLen.read fsLen.read
        (some 2) none false false
      = .ok ([.lengthFilter "audio" 2 1],
        { audio_files := ["d/p-feats.npy"]
          mel_files := ["d/p-feats.npy"]
          audio_load_fn := fsLen.read
          mel_load_fn := fsLen.read
          utt_ids := ["p-feats.npy"]
          return_utt_id := false
          allow_cache := false
          caches := [] })
    ∧ AudioDataset.init fsLen "d" "-feats.npy" fsLen.read (some 2) false false
      = .error (.attributeError "logging" "waning") := by
  exact ⟨rfl, rfl, rfl⟩

/-- A decode invocation with neither `--feats-scp` nor `--dumpdir`. -/
def argsC7 : DecodeArgs :=
  { feats_scp := none
    dumpdir := none
    trg_stats := "stats.h5"
    outdir := "out"
    checkpoint := "exp/checkpoint.pkl"
    config := none }

/-- C7, counterexample: invoked with neither input-source flag, the decode
driver does raise the configuration `ValueError`, but only after having
created the output directory, opened the configuration file and read the
target-stats file — the performed-I/O trace at the moment of the raise is
not empty, contradicting "before any I/O". -/
theorem C7_counterexample :
    vcDecodeMain argsC7 false
      = ([.makedirs "out", .openConfig "exp/config.yml", .readStats "stats.h5"],
        some (.valueError "Please specify either --dumpdir or --feats-scp."))
    ∧ (([.makedirs "out", .openConfig "exp/config.yml", .readStats "stats.h5"]
        : List IOAct).isEmpty) = false := by
  exact ⟨rfl, rfl⟩

/-- C7, amended: invoked with both input-source flags or with neither, the
decode driver raises the fatal
`ValueError("Please specify either --dumpdir or --feats-scp.")` after
creating the output directory (when missing), reading the configuration
file and reading the target-stats file, but before opening any dataset
(and before touching the checkpoint). -/
theorem C7_theorem (args : DecodeArgs) (ex : Bool)
    (h : (args.feats_scp.isSome ∧ args.dumpdir.isSome)
      ∨ (args.feats_scp.isNone ∧ args.dumpdir.isNone)) :
    vcDecodeMain args ex
      = ((if ex then [] else [.makedirs args.outdir])
          ++ [.openConfig (match args.config with
              | none => dirname args.checkpoint ++ "/config.yml"
              | some p => p),
            .readStats args.trg_stats],
        some (.valueError "Please specify either --dumpdir or --feats-scp."))
    ∧ ∀ d, IOAct.openDataset d ∉ (vcDecodeMain args ex).1 := by
  constructor
  · simp only [vcDecodeMain]
    rw [if_pos h]
  · intro d
    simp only [vcDecodeMain]
    rw [if_pos h]
    cases ex <;> simp

/-- C7, witness: the amended theorem applied to the neither-flag
invocation `argsC7`. -/
theorem C7_witness :
    (argsC7.feats_scp.isNone ∧ argsC7.dumpdir.isNone)
    ∧ (vcDecodeMain argsC7 false).2
        = some (.valueError "Please specify either --dumpdir or --feats-scp.") := by
  exact ⟨⟨rfl, rfl⟩, congrArg Prod.snd (C7_theorem argsC7 false (Or.inr ⟨rfl, rfl⟩)).1⟩

/-!
Cache behaviour of `__getitem__`, shared across the five variants: a
well-formed cache slot (`wfAt`) is either the untouched sentinel or the
very item this index produces — exactly the states reachable from
construction, where every slot starts as the sentinel and is only ever
written with the freshly computed item.
-/

/-- Writing back the element already stored at an index is the identity. -/
theorem list_set_self {α : Type} (l : List α) (n : Nat) (a : α)
    (h : l.get? n = some a) : l.set n a = l := by
  induction l generalizing n with
  | nil => cases h
  | cons x xs ih =>
    cases n with
    | zero =>
      rw [List.get?_cons_zero, Option.some.injEq] at h
      rw [h]
      rfl
    | succ m =>
      rw [List.get?_cons_succ] at h
      rw [List.set_cons_succ, ih m h]

/-- Reading back a just-written cache slot inside the list. -/
theorem list_getD_set_self {α : Type} (l : List α) (n : Nat) (a d : α)
    (h : n < l.length) : (l.set n a).getD n d = a := by
  have := List.getElem?_set_eq_of_lt a (l := l) h
  simp [List.getD, this]

/-- An out-of-range `getD` yields the default. -/
theorem list_getD_of_le {α : Type} (l : List α) (n : Nat) (d : α)
    (h : l.length ≤ n) : l.getD n d = d := by
  simp [List.getD, List.getElem?_eq_none h]

/-- `SourceVCMelDataset`: slot `idx` is the sentinel or this index's item. -/
def SourceDS.wfAt (ds : SourceDS) (idx : Nat) : Prop :=
  ds.caches.getD idx cacheSentinel = cacheSentinel
  ∨ ds.caches.getD idx cacheSentinel = ds.items idx

/-- `SourceVCMelDataset.__getitem__`, cache-hit branch. -/
theorem sourceGetitemHit (ds : SourceDS) (idx : Nat)
    (hc : ds.allow_cache = true ∧ pyLen (ds.caches.getD idx cacheSentinel) ≠ 0) :
    ds.getitem idx = (ds.caches.getD idx cacheSentinel, ds, 0) := by
  simp only [SourceDS.getitem, if_pos hc]

/-- `SourceVCMelDataset.__getitem__`, cache-miss branch. -/
theorem sourceGetitemMiss (ds : SourceDS) (idx : Nat)
    (hc : ¬ (ds.allow_cache = true ∧ pyLen (ds.caches.getD idx cacheSentinel) ≠ 0)) :
    ds.getitem idx = (ds.items idx,
      (if ds.allow_cache then { ds with caches := ds.caches.set idx (ds.items idx) } else ds),
      1) := by
  simp only [SourceDS.getitem, if_neg hc]

/-- `SourceVCMelDataset.__getitem__` only ever touches the cache list. -/
theorem sourceGetitemFrame (ds : SourceDS) (idx : Nat) :
    (ds.getitem idx).2.1 = { ds with caches := ((ds.getitem idx).2.1).caches } := by
  simp only [SourceDS.getitem]
  split
  · rfl
  · split
    · rfl
    · rfl

/-- A well-formed slot makes `__getitem__` return this index's item,
whether it hits or misses the cache. -/
theorem sourceGetitemResult (ds : SourceDS) (idx : Nat) (hwf : ds.wfAt idx) :
    (ds.getitem idx).1 = ds.items idx := by
  by_cases hc : ds.allow_cache = true ∧ pyLen (ds.caches.getD idx cacheSentinel) ≠ 0
  · rcases hwf with h | h
    · rw [h] at hc
      exact absurd rfl hc.2
    · rw [sourceGetitemHit ds idx hc, h]
  · rw [sourceGetitemMiss ds idx hc]

/-- `AudioMelDataset`: slot `idx` is the sentinel or this index's item. -/
def AudioMelDS.wfAt (ds : AudioMelDS) (idx : Nat) : Prop :=
  ds.caches.getD idx cacheSentinel = cacheSentinel
  ∨ ds.caches.getD idx cacheSentinel = ds.items idx

/-- `AudioMelDataset.__getitem__`, cache-hit branch. -/
theorem audioMelGetitemHit (ds : AudioMelDS) (idx : Nat)
    (hc : ds.allow_cache = true ∧ pyLen (ds.caches.getD idx cacheSentinel) ≠ 0) :
    ds.getitem idx = (ds.caches.getD idx cacheSentinel, ds, 0) := by
  simp only [AudioMelDS.getitem, if_pos hc]

/-- `AudioMelDataset.__getitem__`, cache-miss branch. -/
theorem audioMelGetitemMiss (ds : AudioMelDS) (idx : Nat)
    (hc : ¬ (ds.allow_cache = true ∧ pyLen (ds.caches.getD idx cacheSentinel) ≠ 0)) :
    ds.getitem idx = (ds.items idx,
      (if ds.allow_cache then { ds with caches := ds.caches.set idx (ds.items idx) } else ds),
      2) := by
  simp only [AudioMelDS.getitem, if_neg hc]

/-- `AudioMelDataset.__getitem__` only ever touches the cache list. -/
theorem audioMelGetitemFrame (ds : AudioMelDS) (idx : Nat) :
    (ds.getitem idx).2.1 = { ds with caches := ((ds.getitem idx).2.1).caches } := by
  simp only [AudioMelDS.getitem]
  split
  · rfl
  · split
    · rfl
    · rfl

/-- A well-formed slot makes `__getitem__` return this index's item. -/
theorem audioMelGetitemResult (ds : AudioMelDS) (idx : Nat) (hwf : ds.wfAt idx) :
    (ds.getitem idx).1 = ds.items idx := by
  by_cases hc : ds.allow_cache = true ∧ pyLen (ds.caches.getD idx cacheSentinel) ≠ 0
  · rcases hwf with h | h
    · rw [h] at hc
      exact absurd rfl hc.2
    · rw [audioMelGetitemHit ds idx hc, h]
  · rw [audioMelGetitemMiss ds idx hc]

/-- `AudioDataset`: slot `idx` is the sentinel or this index's item. -/
def AudioDS.wfAt (ds : AudioDS) (idx : Nat) : Prop :=
  ds.caches.getD idx cacheSentinel = cacheSentinel
  ∨ ds.caches.getD idx cacheSentinel = ds.items idx

/-- `AudioDataset.__getitem__`, cache-hit branch. -/
theorem audioGetitemHit (ds : AudioDS) (idx : Nat)
    (hc : ds.allow_cache = true ∧ pyLen (ds.caches.getD idx cacheSentinel) ≠ 0) :
    ds.getitem idx = (ds.caches.getD idx cacheSentinel, ds, 0) := by
  simp only [AudioDS.getitem, if_pos hc]

/-- `AudioDataset.__getitem__`, cache-miss branch. -/
theorem audioGetitemMiss (ds : AudioDS) (idx : Nat)
    (hc : ¬ (ds.allow_cache = true ∧ pyLen (ds.caches.getD idx cacheSentinel) ≠ 0)) :
    ds.getitem idx = (ds.items idx,
      (if ds.allow_cache then { ds with caches := ds.caches.set idx (ds.items idx) } else ds),
      1) := by
  simp only [AudioDS.getitem, if_neg hc]

/-- `AudioDataset.__getitem__` only ever touches the cache list. -/
theorem audioGetitemFrame (ds : AudioDS) (idx : Nat) :
    (ds.getitem idx).2.1 = { ds with caches := ((ds.getitem idx).2.1).caches } := by
  simp only [AudioDS.getitem]
  split
  · rfl
  · split
    · rfl
    · rfl

/-- A well-formed slot makes `__getitem__` return this index's item. -/
theorem audioGetitemResult (ds : AudioDS) (idx : Nat) (hwf : ds.wfAt idx) :
    (ds.getitem idx).1 = ds.items idx := by
  by_cases hc : ds.allow_cache = true ∧ pyLen (ds.caches.getD idx cacheSentinel) ≠ 0
  · rcases hwf with h | h
    · rw [h] at hc
      exact absurd rfl hc.2
    · rw [audioGetitemHit ds idx hc, h]
  · rw [audioGetitemMiss ds idx hc]

/-- `MelDataset`: slot `idx` is the sentinel or this index's item. -/
def MelDS.wfAt (ds : MelDS) (idx : Nat) : Prop :=
  ds.caches.getD idx cacheSentinel = cacheSentinel
  ∨ ds.caches.getD idx cacheSentinel = ds.items idx

/-- `MelDataset.__getitem__`, cache-hit branch. -/
theorem melGetitemHit (ds : MelDS) (idx : Nat)
    (hc : ds.allow_cache = true ∧ pyLen (ds.caches.getD idx cacheSentinel) ≠ 0) :
    ds.getitem idx = (ds.caches.getD idx cacheSentinel, ds, 0) := by
  simp only [MelDS.getitem, if_pos hc]

/-- `MelDataset.__getitem__`, cache-miss branch. -/
theorem melGetitemMiss (ds : MelDS) (idx : Nat)
    (hc : ¬ (ds.allow_cache = true ∧ pyLen (ds.caches.getD idx cacheSentinel) ≠ 0)) :
    ds.getitem idx = (ds.items idx,
      (if ds.allow_cache then { ds with caches := ds.caches.set idx (ds.items idx) } else ds),
      1) := by
  simp only [MelDS.getitem, if_neg hc]

/-- `MelDataset.__getitem__` only ever touches the cache list. -/
theorem melGetitemFrame (ds : MelDS) (idx : Nat) :
    (ds.getitem idx).2.1 = { ds with caches := ((ds.getitem idx).2.1).caches } := by
  simp only [MelDS.getitem]
  split
  · rfl
  · split
    · rfl
    · rfl

/-- A well-formed slot makes `__getitem__` return this index's item. -/
theorem melGetitemResult (ds : MelDS) (idx : Nat) (hwf : ds.wfAt idx) :
    (ds.getitem idx).1 = ds.items idx := by
  by_cases hc : ds.allow_cache = true ∧ pyLen (ds.caches.getD idx cacheSentinel) ≠ 0
  · rcases hwf with h | h
    · rw [h] at hc
      exact absurd rfl hc.2
    · rw [melGetitemHit ds idx hc, h]
  · rw [melGetitemMiss ds idx hc]

/-- `ParallelVCMelDataset`: slot `idx` is the sentinel or this index's item. -/
def ParallelDS.wfAt (ds : ParallelDS) (idx : Nat) : Prop :=
  ds.caches.getD idx cacheSentinel = cacheSentinel
  ∨ ds.caches.getD idx cacheSentinel = ds.items idx

/-- `ParallelVCMelDataset.__getitem__`, cache-hit branch. -/
theorem parallelGetitemHit (ds : ParallelDS) (idx : Nat)
    (hc : ds.allow_cache = true ∧ pyLen (ds.caches.getD idx cacheSentinel) ≠ 0) :
    ds.getitem idx = (ds.caches.getD idx cacheSentinel, ds, 0) := by
  simp only [ParallelDS.getitem, if_pos hc]

/-- `ParallelVCMelDataset.__getitem__`, cache-miss branch. -/
theorem parallelGetitemMiss (ds : ParallelDS) (idx : Nat)
    (hc : ¬ (ds.allow_cache = true ∧ pyLen (ds.caches.getD idx cacheSentinel) ≠ 0)) :
    ds.getitem idx = (ds.items idx,
      (if ds.allow_cache then { ds with caches := ds.caches.set idx (ds.items idx) } else ds),
      2) := by
  simp only [ParallelDS.getitem, if_neg hc]

/-- `ParallelVCMelDataset.__getitem__` only ever touches the cache list. -/
theorem parallelGetitemFrame (ds : ParallelDS) (idx : Nat) :
    (ds.getitem idx).2.1 = { ds with caches := ((ds.getitem idx).2.1).caches } := by
  simp only [ParallelDS.getitem]
  split
  · rfl
  · split
    · rfl
    · rfl

/-- A well-formed slot makes `__getitem__` return this index's item. -/
theorem parallelGetitemResult (ds : ParallelDS) (idx : Nat) (hwf : ds.wfAt idx) :
    (ds.getitem idx).1 = ds.items idx := by
  by_cases hc : ds.allow_cache = true ∧ pyLen (ds.caches.getD idx cacheSentinel) ≠ 0
  · rcases hwf with h | h
    · rw [h] at hc
      exact absurd rfl hc.2
    · rw [parallelGetitemHit ds idx hc, h]
  · rw [parallelGetitemMiss ds idx hc]

/-- C8, amended: for every dataset variant and valid index, with caching
disabled each `get(i)` re-invokes the injected load function(s) and the
two calls yield equal results; with caching enabled and a fresh (sentinel)
slot, the first call loads and stores the result and — provided the
stored item has non-zero Python length — the second call returns exactly
the stored item with zero load invocations.  (An item of Python length 0,
e.g. a bare empty array, is indistinguishable from the sentinel, and the
counterexample shows it is re-loaded on every call.) -/
theorem C8_theorem :
    (∀ (ds : AudioMelDS) (idx : Nat), ds.allow_cache = false →
        ds.getitem idx = (ds.items idx, ds, 2)
        ∧ ((ds.getitem idx).2.1).getitem idx = (ds.items idx, ds, 2))
    ∧ (∀ (ds : AudioMelDS) (idx : Nat), ds.allow_cache = true →
        ds.caches.getD idx cacheSentinel = cacheSentinel →
        pyLen (ds.items idx) ≠ 0 →
        idx < ds.caches.length →
          (ds.getitem idx).2.2 = 2
          ∧ (ds.getitem idx).1 = ds.items idx
          ∧ ((ds.getitem idx).2.1).caches.getD idx cacheSentinel = ds.items idx
          ∧ ((ds.getitem idx).2.1).getitem idx = (ds.items idx, (ds.getitem idx).2.1, 0))
    ∧ (∀ (ds : AudioDS) (idx : Nat), ds.allow_cache = false →
        ds.getitem idx = (ds.items idx, ds, 1)
        ∧ ((ds.getitem idx).2.1).getitem idx = (ds.items idx, ds, 1))
    ∧ (∀ (ds : AudioDS) (idx : Nat), ds.allow_cache = true →
        ds.caches.getD idx cacheSentinel = cacheSentinel →
        pyLen (ds.items idx) ≠ 0 →
        idx < ds.caches.length →
          (ds.getitem idx).2.2 = 1
          ∧ (ds.getitem idx).1 = ds.items idx
          ∧ ((ds.getitem idx).2.1).caches.getD idx cacheSentinel = ds.items idx
          ∧ ((ds.getitem idx).2.1).getitem idx = (ds.items idx, (ds.getitem idx).2.1, 0))
    ∧ (∀ (ds : MelDS) (idx : Nat), ds.allow_cache = false →
        ds.getitem idx = (ds.items idx, ds, 1)
        ∧ ((ds.getitem idx).2.1).getitem idx = (ds.items idx, ds, 1))
    ∧ (∀ (ds : MelDS) (idx : Nat), ds.allow_cache = true →
        ds.caches.getD idx cacheSentinel = cacheSentinel →
        pyLen (ds.items idx) ≠ 0 →
        idx < ds.caches.length →
          (ds.getitem idx).2.2 = 1
          ∧ (ds.getitem idx).1 = ds.items idx
          ∧ ((ds.getitem idx).2.1).caches.getD idx cacheSentinel = ds.items idx
          ∧ ((ds.getitem idx).2.1).getitem idx = (ds.items idx, (ds.getitem idx).2.1, 0))
    ∧ (∀ (ds : ParallelDS) (idx : Nat), ds.allow_cache = false →
        ds.getitem idx = (ds.items idx, ds, 2)
        ∧ ((ds.getitem idx).2.1).getitem idx = (ds.items idx, ds, 2))
    ∧ (∀ (ds : ParallelDS) (idx : Nat), ds.allow_cache = true →
        ds.caches.getD idx cacheSentinel = cacheSentinel →
        pyLen (ds.items idx) ≠ 0 →
        idx < ds.caches.length →
          (ds.getitem idx).2.2 = 2
          ∧ (ds.getitem idx).1 = ds.items idx
          ∧ ((ds.getitem idx).2.1).caches.getD idx cacheSentinel = ds.items idx
          ∧ ((ds.getitem idx).2.1).getitem idx = (ds.items idx, (ds.getitem idx).2.1, 0))
    ∧ (∀ (ds : SourceDS) (idx : Nat), ds.allow_cache = false →
        ds.getitem idx = (ds.items idx, ds, 1)
        ∧ ((ds.getitem idx).2.1).getitem idx = (ds.items idx, ds, 1))
    ∧ (∀ (ds : SourceDS) (idx : Nat), ds.allow_cache = true →
        ds.caches.getD idx cacheSentinel = cacheSentinel →
        pyLen (ds.items idx) ≠ 0 →
        idx < ds.caches.length →
          (ds.getitem idx).2.2 = 1
          ∧ (ds.getitem idx).1 = ds.items idx
          ∧ ((ds.getitem idx).2.1).caches.getD idx cacheSentinel = ds.items idx
          ∧ ((ds.getitem idx).2.1).getitem idx = (ds.items idx, (ds.getitem idx).2.1, 0)) := by
  refine ⟨?_, ?_, ?_, ?_, ?_, ?_, ?_, ?_, ?_, ?_⟩
  · intro ds idx hac
    have hc : ¬ (ds.allow_cache = true ∧ pyLen (ds.caches.getD idx cacheSentinel) ≠ 0) := by
      simp [hac]
    have h1 : ds.getitem idx = (ds.items idx, ds, 2) := by
      rw [audioMelGetitemMiss ds idx hc]
      simp [hac]
    refine ⟨h1, ?_⟩
    rw [h1]
    exact h1
  · intro ds idx hac hslot hlen hidx
    have hc : ¬ (ds.allow_cache = true ∧ pyLen (ds.caches.getD idx cacheSentinel) ≠ 0) := by
      rw [hslot]
      simp [pyLen, cacheSentinel]
    have h1 := audioMelGetitemMiss ds idx hc
    have hs1 : (ds.getitem idx).2.1 = { ds with caches := ds.caches.set idx (ds.items idx) } := by
      rw [h1]
      simp [hac]
    have hslot2 : ({ ds with caches := ds.caches.set idx (ds.items idx) } : AudioMelDS).caches.getD
        idx cacheSentinel = ds.items idx :=
      list_getD_set_self ds.caches idx (ds.items idx) cacheSentinel hidx
    refine ⟨by rw [h1], by rw [h1], by rw [hs1]; exact hslot2, ?_⟩
    have hhit := audioMelGetitemHit ({ ds with caches := ds.caches.set idx (ds.items idx) })
      idx ⟨hac, by rw [hslot2]; exact hlen⟩
    rw [hs1, hhit, hslot2]
  · intro ds idx hac
    have hc : ¬ (ds.allow_cache = true ∧ pyLen (ds.caches.getD idx cacheSentinel) ≠ 0) := by
      simp [hac]
    have h1 : ds.getitem idx = (ds.items idx, ds, 1) := by
      rw [audioGetitemMiss ds idx hc]
      simp [hac]
    refine ⟨h1, ?_⟩
    rw [h1]
    exact h1
  · intro ds idx hac hslot hlen hidx
    have hc : ¬ (ds.allow_cache = true ∧ pyLen (ds.caches.getD idx cacheSentinel) ≠ 0) := by
      rw [hslot]
      simp [pyLen, cacheSentinel]
    have h1 := audioGetitemMiss ds idx hc
    have hs1 : (ds.getitem idx).2.1 = { ds with caches := ds.caches.set idx (ds.items idx) } := by
      rw [h1]
      simp [hac]
    have hslot2 : ({ ds with caches := ds.caches.set idx (ds.items idx) } : AudioDS).caches.getD
        idx cacheSentinel = ds.items idx :=
      list_getD_set_self ds.caches idx (ds.items idx) cacheSentinel hidx
    refine ⟨by rw [h1], by rw [h1], by rw [hs1]; exact hslot2, ?_⟩
    have hhit := audioGetitemHit ({ ds with caches := ds.caches.set idx (ds.items idx) })
      idx ⟨hac, by rw [hslot2]; exact hlen⟩
    rw [hs1, hhit, hslot2]
  · intro ds idx hac
    have hc : ¬ (ds.allow_cache = true ∧ pyLen (ds.caches.getD idx cacheSentinel) ≠ 0) := by
      simp [hac]
    have h1 : ds.getitem idx = (ds.items idx, ds, 1) := by
      rw [melGetitemMiss ds idx hc]
      simp [hac]
    refine ⟨h1, ?_⟩
    rw [h1]
    exact h1
  · intro ds idx hac hslot hlen hidx
    have hc : ¬ (ds.allow_cache = true ∧ pyLen (ds.caches.getD idx cacheSentinel) ≠ 0) := by
      rw [hslot]
      simp [pyLen, cacheSentinel]
    have h1 := melGetitemMiss ds idx hc
    have hs1 : (ds.getitem idx).2.1 = { ds with caches := ds.caches.set idx (ds.items idx) } := by
      rw [h1]
      simp [hac]
    have hslot2 : ({ ds with caches := ds.caches.set idx (ds.items idx) } : MelDS).caches.getD
        idx cacheSentinel = ds.items idx :=
      list_getD_set_self ds.caches idx (ds.items idx) cacheSentinel hidx
    refine ⟨by rw [h1], by rw [h1], by rw [hs1]; exact hslot2, ?_⟩
    have hhit := melGetitemHit ({ ds with caches := ds.caches.set idx (ds.items idx) })
      idx ⟨hac, by rw [hslot2]; exact hlen⟩
    rw [hs1, hhit, hslot2]
  · intro ds idx hac
    have hc : ¬ (ds.allow_cache = true ∧ pyLen (ds.caches.getD idx cacheSentinel) ≠ 0) := by
      simp [hac]
    have h1 : ds.getitem idx = (ds.items idx, ds, 2) := by
      rw [parallelGetitemMiss ds idx hc]
      simp [hac]
    refine ⟨h1, ?_⟩
    rw [h1]
    exact h1
  · intro ds idx hac hslot hlen hidx
    have hc : ¬ (ds.allow_cache = true ∧ pyLen (ds.caches.getD idx cacheSentinel) ≠ 0) := by
      rw [hslot]
      simp [pyLen, cacheSentinel]
    have h1 := parallelGetitemMiss ds idx hc
    have hs1 : (ds.getitem idx).2.1 = { ds with caches := ds.caches.set idx (ds.items idx) } := by
      rw [h1]
      simp [hac]
    have hslot2 : ({ ds with caches := ds.caches.set idx (ds.items idx) } : ParallelDS).caches.getD
        idx cacheSentinel = ds.items idx :=
      list_getD_set_self ds.caches idx (ds.items idx) cacheSentinel hidx
    refine ⟨by rw [h1], by rw [h1], by rw [hs1]; exact hslot2, ?_⟩
    have hhit := parallelGetitemHit ({ ds with caches := ds.caches.set idx (ds.items idx) })
      idx ⟨hac, by rw [hslot2]; exact hlen⟩
    rw [hs1, hhit, hslot2]
  · intro ds idx hac
    have hc : ¬ (ds.allow_cache = true ∧ pyLen (ds.caches.getD idx cacheSentinel) ≠ 0) := by
      simp [hac]
    have h1 : ds.getitem idx = (ds.items idx, ds, 1) := by
      rw [sourceGetitemMiss ds idx hc]
      simp [hac]
    refine ⟨h1, ?_⟩
    rw [h1]
    exact h1
  · intro ds idx hac hslot hlen hidx
    have hc : ¬ (ds.allow_cache = true ∧ pyLen (ds.caches.getD idx cacheSentinel) ≠ 0) := by
      rw [hslot]
      simp [pyLen, cacheSentinel]
    have h1 := sourceGetitemMiss ds idx hc
    have hs1 : (ds.getitem idx).2.1 = { ds with caches := ds.caches.set idx (ds.items idx) } := by
      rw [h1]
      simp [hac]
    have hslot2 : ({ ds with caches := ds.caches.set idx (ds.items idx) } : SourceDS).caches.getD
        idx cacheSentinel = ds.items idx :=
      list_getD_set_self ds.caches idx (ds.items idx) cacheSentinel hidx
    refine ⟨by rw [h1], by rw [h1], by rw [hs1]; exact hslot2, ?_⟩
    have hhit := sourceGetitemHit ({ ds with caches := ds.caches.set idx (ds.items idx) })
      idx ⟨hac, by rw [hslot2]; exact hlen⟩
    rw [hs1, hhit, hslot2]

/-- A root whose single feature file holds a zero-length array. -/
def fs8 : FileSys := ⟨[("d/u-feats.npy", ⟨[]⟩)]⟩

/-- The dataset `SourceVCMelDataset(fs8, "d", allow_cache=True)`
constructs. -/
def ds8 : SourceDS :=
  { src_mel_files := ["d/u-feats.npy"]
    mel_load_fn := fs8.read
    utt_ids := ["u-feats"]
    return_utt_id := false
    allow_cache := true
    caches := [cacheSentinel] }

/-- C8, counterexample: with caching enabled over a zero-length array, the
first `get(0)` loads (one load-function call) and stores the bare empty
array, but `len(cache[0]) != 0` still fails, so the second call loads
again (one call, not zero) instead of returning the stored object without
re-invoking the load function. -/
theorem C8_counterexample :
    SourceVCMelDataset.init fs8 "d" "-feats.npy" fs8.read false true = .ok ([], ds8)
    ∧ (ds8.getitem 0).2.2 = 1
    ∧ ((ds8.getitem 0).2.1).caches = [.arr ⟨[]⟩]
    ∧ (((ds8.getitem 0).2.1).getitem 0).2.2 = 1 := by
  exact ⟨rfl, rfl, rfl, rfl⟩

/-- An audio+mel dataset over `fsLen` with caching off, exercising the
no-cache half of the idempotence theorem. -/
def dsC8am : AudioMelDS :=
  { audio_files := ["d/p-feats.npy"]
    mel_files := ["d/p-feats.npy"]
    audio_load_fn := fsLen.read
    mel_load_fn := fsLen.read
    utt_ids := ["p-feats.npy"]
    return_utt_id := false
    allow_cache := false
    caches := [] }

/-- A source-only dataset over `fsLen` with caching on and a fresh slot,
exercising the cache half of the idempotence theorem. -/
def dsC8s : SourceDS :=
  { src_mel_files := ["d/p-feats.npy"]
    mel_load_fn := fsLen.read
    utt_ids := ["p-feats"]
    return_utt_id := false
    allow_cache := true
    caches := [cacheSentinel] }

/-- C8, witness: the no-cache conjunct applied to `dsC8am` and the cached
conjunct applied to `dsC8s`, with every hypothesis discharged concretely. -/
theorem C8_witness :
    dsC8am.getitem 0 = (dsC8am.items 0, dsC8am, 2)
    ∧ ((dsC8s.getitem 0).2.1).getitem 0 = (dsC8s.items 0, (dsC8s.getitem 0).2.1, 0) := by
  exact ⟨(C8_theorem.1 dsC8am 0 rfl).1,
    (C8_theorem.2.2.2.2.2.2.2.2.2 dsC8s 0 rfl rfl (by decide) (by decide)).2.2.2⟩

/-- Is this Python value a tuple? -/
def isTuple : PyVal → Bool
  | .tuple _ => true
  | .arr _ => false
  | .str _ => false

/-- C9, counterexample: the mel-only variant with id-return disabled
returns the bare array object, not a 1-tuple — `items = mel` on the
`else` branch of `MelDataset.__getitem__`. -/
theorem C9_counterexample :
    dsC4.return_utt_id = false
    ∧ (dsC4.getitem 0).1 = .arr (feat 5 1)
    ∧ isTuple ((dsC4.getitem 0).1) = false := by
  exact ⟨rfl, rfl, rfl⟩

/-- C9, amended: with id-return enabled every variant returns the tuple
`(utt_id, *arrays)`; with id-return disabled the two-modality variants
(audio+mel, parallel) return the bare tuple of the two arrays, while the
single-modality variants (audio-only, mel-only, source-only) return the
bare array itself, not a tuple. -/
theorem C9_theorem :
    (∀ (ds : AudioMelDS) (idx : Nat), ds.wfAt idx →
      (ds.return_utt_id = true → (ds.getitem idx).1
          = .tuple [.str (ds.utt_ids.getD idx ""),
            .arr (ds.audio_load_fn (ds.audio_files.getD idx "")),
            .arr (ds.mel_load_fn (ds.mel_files.getD idx ""))])
      ∧ (ds.return_utt_id = false → (ds.getitem idx).1
          = .tuple [.arr (ds.audio_load_fn (ds.audio_files.getD idx "")),
            .arr (ds.mel_load_fn (ds.mel_files.getD idx ""))]))
    ∧ (∀ (ds : AudioDS) (idx : Nat), ds.wfAt idx →
      (ds.return_utt_id = true → (ds.getitem idx).1
          = .tuple [.str (ds.utt_ids.getD idx ""),
            .arr (ds.audio_load_fn (ds.audio_files.getD idx ""))])
      ∧ (ds.return_utt_id = false → (ds.getitem idx).1
          = .arr (ds.audio_load_fn (ds.audio_files.getD idx ""))))
    ∧ (∀ (ds : MelDS) (idx : Nat), ds.wfAt idx →
      (ds.return_utt_id = true → (ds.getitem idx).1
          = .tuple [.str (ds.utt_ids.getD idx ""),
            .arr (ds.mel_load_fn (ds.mel_files.getD idx ""))])
      ∧ (ds.return_utt_id = false → (ds.getitem idx).1
          = .arr (ds.mel_load_fn (ds.mel_files.getD idx ""))))
    ∧ (∀ (ds : ParallelDS) (idx : Nat), ds.wfAt idx →
      (ds.return_utt_id = true → (ds.getitem idx).1
          = .tuple [.str (ds.utt_ids.getD idx ""),
            .arr (ds.src_load_fn (ds.mel_files.getD idx ("", "")).1),
            .arr (ds.trg_load_fn (ds.mel_files.getD idx ("", "")).2)])
      ∧ (ds.return_utt_id = false → (ds.getitem idx).1
          = .tuple [.arr (ds.src_load_fn (ds.mel_files.getD idx ("", "")).1),
            .arr (ds.trg_load_fn (ds.mel_files.getD idx ("", "")).2)]))
    ∧ (∀ (ds : SourceDS) (idx : Nat), ds.wfAt idx →
      (ds.return_utt_id = true → (ds.getitem idx).1
          = .tuple [.str (ds.utt_ids.getD idx ""),
            .arr (ds.mel_load_fn (ds.src_mel_files.getD idx ""))])
      ∧ (ds.return_utt_id = false → (ds.getitem idx).1
          = .arr (ds.mel_load_fn (ds.src_mel_files.getD idx "")))) := by
  refine ⟨?_, ?_, ?_, ?_, ?_⟩
  · intro ds idx hwf
    rw [audioMelGetitemResult ds idx hwf]
    exact ⟨fun hr => by simp [AudioMelDS.items, hr], fun hr => by simp [AudioMelDS.items, hr]⟩
  · intro ds idx hwf
    rw [audioGetitemResult ds idx hwf]
    exact ⟨fun hr => by simp [AudioDS.items, hr], fun hr => by simp [AudioDS.items, hr]⟩
  · intro ds idx hwf
    rw [melGetitemResult ds idx hwf]
    exact ⟨fun hr => by simp [MelDS.items, hr], fun hr => by simp [MelDS.items, hr]⟩
  · intro ds idx hwf
    rw [parallelGetitemResult ds idx hwf]
    exact ⟨fun hr => by simp [ParallelDS.items, hr], fun hr => by simp [ParallelDS.items, hr]⟩
  · intro ds idx hwf
    rw [sourceGetitemResult ds idx hwf]
    exact ⟨fun hr => by simp [SourceDS.items, hr], fun hr => by simp [SourceDS.items, hr]⟩

/-- C9, witness: the mel-only conjunct applied to the no-id dataset
`dsC4` (bare array) and the audio+mel conjunct applied to `dsC8am`
(bare 2-tuple), hypotheses discharged concretely. -/
theorem C9_witness :
    (dsC4.getitem 0).1 = .arr (dsC4.mel_load_fn (dsC4.mel_files.getD 0 ""))
    ∧ (dsC8am.getitem 0).1
        = .tuple [.arr (dsC8am.audio_load_fn (dsC8am.audio_files.getD 0 "")),
          .arr (dsC8am.mel_load_fn (dsC8am.mel_files.getD 0 ""))] := by
  exact ⟨(C9_theorem.2.2.1 dsC4 0 (Or.inl rfl)).2 rfl,
    (C9_theorem.1 dsC8am 0 (Or.inl rfl)).2 rfl⟩

/-- In range, `get?` returns exactly the `getD` value. -/
theorem list_get?_getD {α : Type} (l : List α) (n : Nat) (d : α)
    (h : n < l.length) : l.get? n = some (l.getD n d) := by
  rw [List.get?_eq_get h]
  rw [List.getD_eq_getElem l d h]
  rfl

/-- C10: for every dataset variant, `get(i)` leaves every non-cache field
(the discovered file lists, the load functions, the utterance-id list and
the two flags) and the value of `length()` unchanged; with caching off the
state is completely unchanged, with caching on and a sentinel slot exactly
cache slot `i` is written with the computed item, and a well-formed
non-sentinel slot leaves the state unchanged (at the value level the
rewrite of an equal item is the identity); consequently any sequence of
`get` calls leaves the file lists, the utterance ids, the flags and
`length()` as fixed at construction. -/
theorem C10_theorem :
    (∀ (ds : AudioMelDS) (idx : Nat),
      ((ds.getitem idx).2.1).audio_files = ds.audio_files
      ∧ ((ds.getitem idx).2.1).mel_files = ds.mel_files
      ∧ ((ds.getitem idx).2.1).audio_load_fn = ds.audio_load_fn
      ∧ ((ds.getitem idx).2.1).mel_load_fn = ds.mel_load_fn
      ∧ ((ds.getitem idx).2.1).utt_ids = ds.utt_ids
      ∧ ((ds.getitem idx).2.1).return_utt_id = ds.return_utt_id
      ∧ ((ds.getitem idx).2.1).allow_cache = ds.allow_cache
      ∧ ((ds.getitem idx).2.1).len = ds.len
      ∧ (ds.allow_cache = false → (ds.getitem idx).2.1 = ds)
      ∧ (ds.allow_cache = true → ds.caches.getD idx cacheSentinel = cacheSentinel →
          (ds.getitem idx).2.1 = { ds with caches := ds.caches.set idx (ds.items idx) })
      ∧ (ds.wfAt idx → ds.caches.getD idx cacheSentinel ≠ cacheSentinel →
          (ds.getitem idx).2.1 = ds))
    ∧ (∀ (ds : AudioMelDS) (idxs : List Nat),
      (idxs.foldl (fun s i => (s.getitem i).2.1) ds).audio_files = ds.audio_files
      ∧ (idxs.foldl (fun s i => (s.getitem i).2.1) ds).mel_files = ds.mel_files
      ∧ (idxs.foldl (fun s i => (s.getitem i).2.1) ds).utt_ids = ds.utt_ids
      ∧ (idxs.foldl (fun s i => (s.getitem i).2.1) ds).return_utt_id = ds.return_utt_id
      ∧ (idxs.foldl (fun s i => (s.getitem i).2.1) ds).allow_cache = ds.allow_cache
      ∧ (idxs.foldl (fun s i => (s.getitem i).2.1) ds).len = ds.len)
    ∧ (∀ (ds : AudioDS) (idx : Nat),
      ((ds.getitem idx).2.1).audio_files = ds.audio_files
      ∧ ((ds.getitem idx).2.1).audio_load_fn = ds.audio_load_fn
      ∧ ((ds.getitem idx).2.1).utt_ids = ds.utt_ids
      ∧ ((ds.getitem idx).2.1).return_utt_id = ds.return_utt_id
      ∧ ((ds.getitem idx).2.1).allow_cache = ds.allow_cache
      ∧ ((ds.getitem idx).2.1).len = ds.len
      ∧ (ds.allow_cache = false → (ds.getitem idx).2.1 = ds)
      ∧ (ds.allow_cache = true → ds.caches.getD idx cacheSentinel = cacheSentinel →
          (ds.getitem idx).2.1 = { ds with caches := ds.caches.set idx (ds.items idx) })
      ∧ (ds.wfAt idx → ds.caches.getD idx cacheSentinel ≠ cacheSentinel →
          (ds.getitem idx).2.1 = ds))
    ∧ (∀ (ds : AudioDS) (idxs : List Nat),
      (idxs.foldl (fun s i => (s.getitem i).2.1) ds).audio_files = ds.audio_files
      ∧ (idxs.foldl (fun s i => (s.getitem i).2.1) ds).utt_ids = ds.utt_ids
      ∧ (idxs.foldl (fun s i => (s.getitem i).2.1) ds).return_utt_id = ds.return_utt_id
      ∧ (idxs.foldl (fun s i => (s.getitem i).2.1) ds).allow_cache = ds.allow_cache
      ∧ (idxs.foldl (fun s i => (s.getitem i).2.1) ds).len = ds.len)
    ∧ (∀ (ds : MelDS) (idx : Nat),
      ((ds.getitem idx).2.1).mel_files = ds.mel_files
      ∧ ((ds.getitem idx).2.1).mel_load_fn = ds.mel_load_fn
      ∧ ((ds.getitem idx).2.1).utt_ids = ds.utt_ids
      ∧ ((ds.getitem idx).2.1).return_utt_id = ds.return_utt_id
      ∧ ((ds.getitem idx).2.1).allow_cache = ds.allow_cache
      ∧ ((ds.getitem idx).2.1).len = ds.len
      ∧ (ds.allow_cache = false → (ds.getitem idx).2.1 = ds)
      ∧ (ds.allow_cache = true → ds.caches.getD idx cacheSentinel = cacheSentinel →
          (ds.getitem idx).2.1 = { ds with caches := ds.caches.set idx (ds.items idx) })
      ∧ (ds.wfAt idx → ds.caches.getD idx cacheSentinel ≠ cacheSentinel →
          (ds.getitem idx).2.1 = ds))
    ∧ (∀ (ds : MelDS) (idxs : List Nat),
      (idxs.foldl (fun s i => (s.getitem i).2.1) ds).mel_files = ds.mel_files
      ∧ (idxs.foldl (fun s i => (s.getitem i).2.1) ds).utt_ids = ds.utt_ids
      ∧ (idxs.foldl (fun s i => (s.getitem i).2.1) ds).return_utt_id = ds.return_utt_id
      ∧ (idxs.foldl (fun s i => (s.getitem i).2.1) ds).allow_cache = ds.allow_cache
      ∧ (idxs.foldl (fun s i => (s.getitem i).2.1) ds).len = ds.len)
    ∧ (∀ (ds : ParallelDS) (idx : Nat),
      ((ds.getitem idx).2.1).src_mel_files = ds.src_mel_files
      ∧ ((ds.getitem idx).2.1).trg_mel_files = ds.trg_mel_files
      ∧ ((ds.getitem idx).2.1).src_load_fn = ds.src_load_fn
      ∧ ((ds.getitem idx).2.1).trg_load_fn = ds.trg_load_fn
      ∧ ((ds.getitem idx).2.1).utt_ids = ds.utt_ids
      ∧ ((ds.getitem idx).2.1).mel_files = ds.mel_files
      ∧ ((ds.getitem idx).2.1).return_utt_id = ds.return_utt_id
      ∧ ((ds.getitem idx).2.1).allow_cache = ds.allow_cache
      ∧ ((ds.getitem idx).2.1).len = ds.len
      ∧ (ds.allow_cache = false → (ds.getitem idx).2.1 = ds)
      ∧ (ds.allow_cache = true → ds.caches.getD idx cacheSentinel = cacheSentinel →
          (ds.getitem idx).2.1 = { ds with caches := ds.caches.set idx (ds.items idx) })
      ∧ (ds.wfAt idx → ds.caches.getD idx cacheSentinel ≠ cacheSentinel →
          (ds.getitem idx).2.1 = ds))
    ∧ (∀ (ds : ParallelDS) (idxs : List Nat),
      (idxs.foldl (fun s i => (s.getitem i).2.1) ds).src_mel_files = ds.src_mel_files
      ∧ (idxs.foldl (fun s i => (s.getitem i).2.1) ds).trg_mel_files = ds.trg_mel_files
      ∧ (idxs.foldl (fun s i => (s.getitem i).2.1) ds).mel_files = ds.mel_files
      ∧ (idxs.foldl (fun s i => (s.getitem i).2.1) ds).utt_ids = ds.utt_ids
      ∧ (idxs.foldl (fun s i => (s.getitem i).2.1) ds).return_utt_id = ds.return_utt_id
      ∧ (idxs.foldl (fun s i => (s.getitem i).2.1) ds).allow_cache = ds.allow_cache
      ∧ (idxs.foldl (fun s i => (s.getitem i).2.1) ds).len = ds.len)
    ∧ (∀ (ds : SourceDS) (idx : Nat),
      ((ds.getitem idx).2.1).src_mel_files = ds.src_mel_files
      ∧ ((ds.getitem idx).2.1).mel_load_fn = ds.mel_load_fn
      ∧ ((ds.getitem idx).2.1).utt_ids = ds.utt_ids
      ∧ ((ds.getitem idx).2.1).return_utt_id = ds.return_utt_id
      ∧ ((ds.getitem idx).2.1).allow_cache = ds.allow_cache
      ∧ ((ds.getitem idx).2.1).len = ds.len
      ∧ (ds.allow_cache = false → (ds.getitem idx).2.1 = ds)
      ∧ (ds.allow_cache = true → ds.caches.getD idx cacheSentinel = cacheSentinel →
          (ds.getitem idx).2.1 = { ds with caches := ds.caches.set idx (ds.items idx) })
      ∧ (ds.wfAt idx → ds.caches.getD idx cacheSentinel ≠ cacheSentinel →
          (ds.getitem idx).2.1 = ds))
    ∧ (∀ (ds : SourceDS) (idxs : List Nat),
      (idxs.foldl (fun s i => (s.getitem i).2.1) ds).src_mel_files = ds.src_mel_files
      ∧ (idxs.foldl (fun s i => (s.getitem i).2.1) ds).utt_ids = ds.utt_ids
      ∧ (idxs.foldl (fun s i => (s.getitem i).2.1) ds).return_utt_id = ds.return_utt_id
      ∧ (idxs.foldl (fun s i => (s.getitem i).2.1) ds).allow_cache = ds.allow_cache
      ∧ (idxs.foldl (fun s i => (s.getitem i).2.1) ds).len = ds.len) := by
  refine ⟨?_, ?_, ?_, ?_, ?_, ?_, ?_, ?_, ?_, ?_⟩
  · intro ds idx
    have hframe := audioMelGetitemFrame ds idx
    refine ⟨by rw [hframe], by rw [hframe], by rw [hframe], by rw [hframe], by rw [hframe], by rw [hframe], by rw [hframe], by rw [hframe]; rfl, ?_, ?_, ?_⟩
    · intro hac
      have hc : ¬ (ds.allow_cache = true ∧ pyLen (ds.caches.getD idx cacheSentinel) ≠ 0) := by
        simp [hac]
      rw [audioMelGetitemMiss ds idx hc]
      simp [hac]
    · intro hac hslot
      have hc : ¬ (ds.allow_cache = true ∧ pyLen (ds.caches.getD idx cacheSentinel) ≠ 0) := by
        rw [hslot]
        simp [pyLen, cacheSentinel]
      rw [audioMelGetitemMiss ds idx hc]
      simp [hac]
    · intro hwf hne
      rcases hwf with h | h
      · exact absurd h hne
      · by_cases hac : ds.allow_cache = true
        · by_cases hp : pyLen (ds.caches.getD idx cacheSentinel) ≠ 0
          · rw [audioMelGetitemHit ds idx ⟨hac, hp⟩]
          · have hc : ¬ (ds.allow_cache = true ∧
                pyLen (ds.caches.getD idx cacheSentinel) ≠ 0) := fun hcc => hp hcc.2
            rw [audioMelGetitemMiss ds idx hc]
            have hidx : idx < ds.caches.length := by
              by_contra hge
              exact hne (list_getD_of_le ds.caches idx cacheSentinel (Nat.le_of_not_lt hge))
            have hget : ds.caches.get? idx = some (ds.items idx) := by
              rw [list_get?_getD ds.caches idx cacheSentinel hidx, h]
            rw [if_pos hac, list_set_self ds.caches idx (ds.items idx) hget]
        · have hacf : ds.allow_cache = false := by
            revert hac
            cases ds.allow_cache <;> simp
          have hc : ¬ (ds.allow_cache = true ∧
              pyLen (ds.caches.getD idx cacheSentinel) ≠ 0) := fun hcc => hac hcc.1
          rw [audioMelGetitemMiss ds idx hc]
          simp [hacf]
  · intro ds idxs
    induction idxs generalizing ds with
    | nil => exact ⟨rfl, rfl, rfl, rfl, rfl, rfl⟩
    | cons i idxs ih =>
      simp only [List.foldl_cons]
      have hframe := audioMelGetitemFrame ds i
      have hh := ih ((ds.getitem i).2.1)
      have h0 := hh.1
      have h1 := hh.2.1
      have h2 := hh.2.2.1
      have h3 := hh.2.2.2.1
      have h4 := hh.2.2.2.2.1
      have h5 := hh.2.2.2.2.2
      refine ⟨?_, ?_, ?_, ?_, ?_, ?_⟩
      · rw [h0, hframe]
      · rw [h1, hframe]
      · rw [h2, hframe]
      · rw [h3, hframe]
      · rw [h4, hframe]
      · rw [h5, hframe]
        rfl
  · intro ds idx
    have hframe := audioGetitemFrame ds idx
    refine ⟨by rw [hframe], by rw [hframe], by rw [hframe], by rw [hframe], by rw [hframe], by rw [hframe]; rfl, ?_, ?_, ?_⟩
    · intro hac
      have hc : ¬ (ds.allow_cache = true ∧ pyLen (ds.caches.getD idx cacheSentinel) ≠ 0) := by
        simp [hac]
      rw [audioGetitemMiss ds idx hc]
      simp [hac]
    · intro hac hslot
      have hc : ¬ (ds.allow_cache = true ∧ pyLen (ds.caches.getD idx cacheSentinel) ≠ 0) := by
        rw [hslot]
        simp [pyLen, cacheSentinel]
      rw [audioGetitemMiss ds idx hc]
      simp [hac]
    · intro hwf hne
      rcases hwf with h | h
      · exact absurd h hne
      · by_cases hac : ds.allow_cache = true
        · by_cases hp : pyLen (ds.caches.getD idx cacheSentinel) ≠ 0
          · rw [audioGetitemHit ds idx ⟨hac, hp⟩]
          · have hc : ¬ (ds.allow_cache = true ∧
                pyLen (ds.caches.getD idx cacheSentinel) ≠ 0) := fun hcc => hp hcc.2
            rw [audioGetitemMiss ds idx hc]
            have hidx : idx < ds.caches.length := by
              by_contra hge
              exact hne (list_getD_of_le ds.caches idx cacheSentinel (Nat.le_of_not_lt hge))
            have hget : ds.caches.get? idx = some (ds.items idx) := by
              rw [list_get?_getD ds.caches idx cacheSentinel hidx, h]
            rw [if_pos hac, list_set_self ds.caches idx (ds.items idx) hget]
        · have hacf : ds.allow_cache = false := by
            revert hac
            cases ds.allow_cache <;> simp
          have hc : ¬ (ds.allow_cache = true ∧
              pyLen (ds.caches.getD idx cacheSentinel) ≠ 0) := fun hcc => hac hcc.1
          rw [audioGetitemMiss ds idx hc]
          simp [hacf]
  · intro ds idxs
    induction idxs generalizing ds with
    | nil => exact ⟨rfl, rfl, rfl, rfl, rfl⟩
    | cons i idxs ih =>
      simp only [List.foldl_cons]
      have hframe := audioGetitemFrame ds i
      have hh := ih ((ds.getitem i).2.1)
      have h0 := hh.1
      have h1 := hh.2.1
      have h2 := hh.2.2.1
      have h3 := hh.2.2.2.1
      have h4 := hh.2.2.2.2
      refine ⟨?_, ?_, ?_, ?_, ?_⟩
      · rw [h0, hframe]
      · rw [h1, hframe]
      · rw [h2, hframe]
      · rw [h3, hframe]
      · rw [h4, hframe]
        rfl
  · intro ds idx
    have hframe := melGetitemFrame ds idx
    refine ⟨by rw [hframe], by rw [hframe], by rw [hframe], by rw [hframe], by rw [hframe], by rw [hframe]; rfl, ?_, ?_, ?_⟩
    · intro hac
      have hc : ¬ (ds.allow_cache = true ∧ pyLen (ds.caches.getD idx cacheSentinel) ≠ 0) := by
        simp [hac]
      rw [melGetitemMiss ds idx hc]
      simp [hac]
    · intro hac hslot
      have hc : ¬ (ds.allow_cache = true ∧ pyLen (ds.caches.getD idx cacheSentinel) ≠ 0) := by
        rw [hslot]
        simp [pyLen, cacheSentinel]
      rw [melGetitemMiss ds idx hc]
      simp [hac]
    · intro hwf hne
      rcases hwf with h | h
      · exact absurd h hne
      · by_cases hac : ds.allow_cache = true
        · by_cases hp : pyLen (ds.caches.getD idx cacheSentinel) ≠ 0
          · rw [melGetitemHit ds idx ⟨hac, hp⟩]
          · have hc : ¬ (ds.allow_cache = true ∧
                pyLen (ds.caches.getD idx cacheSentinel) ≠ 0) := fun hcc => hp hcc.2
            rw [melGetitemMiss ds idx hc]
            have hidx : idx < ds.caches.length := by
              by_contra hge
              exact hne (list_getD_of_le ds.caches idx cacheSentinel (Nat.le_of_not_lt hge))
            have hget : ds.caches.get? idx = some (ds.items idx) := by
              rw [list_get?_getD ds.caches idx cacheSentinel hidx, h]
            rw [if_pos hac, list_set_self ds.caches idx (ds.items idx) hget]
        · have hacf : ds.allow_cache = false := by
            revert hac
            cases ds.allow_cache <;> simp
          have hc : ¬ (ds.allow_cache = true ∧
              pyLen (ds.caches.getD idx cacheSentinel) ≠ 0) := fun hcc => hac hcc.1
          rw [melGetitemMiss ds idx hc]
          simp [hacf]
  · intro ds idxs
    induction idxs generalizing ds with
    | nil => exact ⟨rfl, rfl, rfl, rfl, rfl⟩
    | cons i idxs ih =>
      simp only [List.foldl_cons]
      have hframe := melGetitemFrame ds i
      have hh := ih ((ds.getitem i).2.1)
      have h0 := hh.1
      have h1 := hh.2.1
      have h2 := hh.2.2.1
      have h3 := hh.2.2.2.1
      have h4 := hh.2.2.2.2
      refine ⟨?_, ?_, ?_, ?_, ?_⟩
      · rw [h0, hframe]
      · rw [h1, hframe]
      · rw [h2, hframe]
      · rw [h3, hframe]
      · rw [h4, hframe]
        rfl
  · intro ds idx
    have hframe := parallelGetitemFrame ds idx
    refine ⟨by rw [hframe], by rw [hframe], by rw [hframe], by rw [hframe], by rw [hframe], by rw [hframe], by rw [hframe], by rw [hframe], by rw [hframe]; rfl, ?_, ?_, ?_⟩
    · intro hac
      have hc : ¬ (ds.allow_cache = true ∧ pyLen (ds.caches.getD idx cacheSentinel) ≠ 0) := by
        simp [hac]
      rw [parallelGetitemMiss ds idx hc]
      simp [hac]
    · intro hac hslot
      have hc : ¬ (ds.allow_cache = true ∧ pyLen (ds.caches.getD idx cacheSentinel) ≠ 0) := by
        rw [hslot]
        simp [pyLen, cacheSentinel]
      rw [parallelGetitemMiss ds idx hc]
      simp [hac]
    · intro hwf hne
      rcases hwf with h | h
      · exact absurd h hne
      · by_cases hac : ds.allow_cache = true
        · by_cases hp : pyLen (ds.caches.getD idx cacheSentinel) ≠ 0
          · rw [parallelGetitemHit ds idx ⟨hac, hp⟩]
          · have hc : ¬ (ds.allow_cache = true ∧
                pyLen (ds.caches.getD idx cacheSentinel) ≠ 0) := fun hcc => hp hcc.2
            rw [parallelGetitemMiss ds idx hc]
            have hidx : idx < ds.caches.length := by
              by_contra hge
              exact hne (list_getD_of_le ds.caches idx cacheSentinel (Nat.le_of_not_lt hge))
            have hget : ds.caches.get? idx = some (ds.items idx) := by
              rw [list_get?_getD ds.caches idx cacheSentinel hidx, h]
            rw [if_pos hac, list_set_self ds.caches idx (ds.items idx) hget]
        · have hacf : ds.allow_cache = false := by
            revert hac
            cases ds.allow_cache <;> simp
          have hc : ¬ (ds.allow_cache = true ∧
              pyLen (ds.caches.getD idx cacheSentinel) ≠ 0) := fun hcc => hac hcc.1
          rw [parallelGetitemMiss ds idx hc]
          simp [hacf]
  · intro ds idxs
    induction idxs generalizing ds with
    | nil => exact ⟨rfl, rfl, rfl, rfl, rfl, rfl, rfl⟩
    | cons i idxs ih =>
      simp only [List.foldl_cons]
      have hframe := parallelGetitemFrame ds i
      have hh := ih ((ds.getitem i).2.1)
      have h0 := hh.1
      have h1 := hh.2.1
      have h2 := hh.2.2.1
      have h3 := hh.2.2.2.1
      have h4 := hh.2.2.2.2.1
      have h5 := hh.2.2.2.2.2.1
      have h6 := hh.2.2.2.2.2.2
      refine ⟨?_, ?_, ?_, ?_, ?_, ?_, ?_⟩
      · rw [h0, hframe]
      · rw [h1, hframe]
      · rw [h2, hframe]
      · rw [h3, hframe]
      · rw [h4, hframe]
      · rw [h5, hframe]
      · rw [h6, hframe]
        rfl
  · intro ds idx
    have hframe := sourceGetitemFrame ds idx
    refine ⟨by rw [hframe], by rw [hframe], by rw [hframe], by rw [hframe], by rw [hframe], by rw [hframe]; rfl, ?_, ?_, ?_⟩
    · intro hac
      have hc : ¬ (ds.allow_cache = true ∧ pyLen (ds.caches.getD idx cacheSentinel) ≠ 0) := by
        simp [hac]
      rw [sourceGetitemMiss ds idx hc]
      simp [hac]
    · intro hac hslot
      have hc : ¬ (ds.allow_cache = true ∧ pyLen (ds.caches.getD idx cacheSentinel) ≠ 0) := by
        rw [hslot]
        simp [pyLen, cacheSentinel]
      rw [sourceGetitemMiss ds idx hc]
      simp [hac]
    · intro hwf hne
      rcases hwf with h | h
      · exact absurd h hne
      · by_cases hac : ds.allow_cache = true
        · by_cases hp : pyLen (ds.caches.getD idx cacheSentinel) ≠ 0
          · rw [sourceGetitemHit ds idx ⟨hac, hp⟩]
          · have hc : ¬ (ds.allow_cache = true ∧
                pyLen (ds.caches.getD idx cacheSentinel) ≠ 0) := fun hcc => hp hcc.2
            rw [sourceGetitemMiss ds idx hc]
            have hidx : idx < ds.caches.length := by
              by_contra hge
              exact hne (list_getD_of_le ds.caches idx cacheSentinel (Nat.le_of_not_lt hge))
            have hget : ds.caches.get? idx = some (ds.items idx) := by
              rw [list_get?_getD ds.caches idx cacheSentinel hidx, h]
            rw [if_pos hac, list_set_self ds.caches idx (ds.items idx) hget]
        · have hacf : ds.allow_cache = false := by
            revert hac
            cases ds.allow_cache <;> simp
          have hc : ¬ (ds.allow_cache = true ∧
              pyLen (ds.caches.getD idx cacheSentinel) ≠ 0) := fun hcc => hac hcc.1
          rw [sourceGetitemMiss ds idx hc]
          simp [hacf]
  · intro ds idxs
    induction idxs generalizing ds with
    | nil => exact ⟨rfl, rfl, rfl, rfl, rfl⟩
    | cons i idxs ih =>
      simp only [List.foldl_cons]
      have hframe := sourceGetitemFrame ds i
      have hh := ih ((ds.getitem i).2.1)
      have h0 := hh.1
      have h1 := hh.2.1
      have h2 := hh.2.2.1
      have h3 := hh.2.2.2.1
      have h4 := hh.2.2.2.2
      refine ⟨?_, ?_, ?_, ?_, ?_⟩
      · rw [h0, hframe]
      · rw [h1, hframe]
      · rw [h2, hframe]
      · rw [h3, hframe]
      · rw [h4, hframe]
        rfl

/-- A source-only dataset whose single cache slot already holds its item. -/
def dsC10 : SourceDS :=
  { src_mel_files := ["d/p-feats.npy"]
    mel_load_fn := fsLen.read
    utt_ids := ["p-feats"]
    return_utt_id := false
    allow_cache := true
    caches := [dsC8s.items 0] }

/-- C10, witness: the frame theorem applied concretely — a no-cache get
leaves the state unchanged, a fresh-slot get writes exactly slot 0, and a
get on an already-populated well-formed slot leaves the state unchanged. -/
theorem C10_witness :
    (dsC8am.getitem 0).2.1 = dsC8am
    ∧ (dsC8s.getitem 0).2.1 = { dsC8s with caches := dsC8s.caches.set 0 (dsC8s.items 0) }
    ∧ (dsC10.getitem 0).2.1 = dsC10 := by
  exact ⟨(C10_theorem.1 dsC8am 0).2.2.2.2.2.2.2.2.1 rfl,
    (C10_theorem.2.2.2.2.2.2.2.2.1 dsC8s 0).2.2.2.2.2.2.2.1 rfl rfl,
    (C10_theorem.2.2.2.2.2.2.2.2.1 dsC10 0).2.2.2.2.2.2.2.2 (Or.inr rfl)
      (fun h => PyVal.noConfusion h)⟩
